import Mathlib

/-!
Verification development for the pythonforge repository
(quickforge.auditor, quickforge.upgrader, pyhatch.models).

The Python modules are shallowly embedded: the project tree is a record of
the configuration files the code inspects, TOML documents are modelled as
ordered association lists (tomlkit tables and tomllib dicts preserve
insertion order), and every operation is a total Lean function translated
from the source.  Filesystem mutation is modelled by threading the tree
record through the functions; raising an exception for an invalid root
path is modelled with Except.

Modelling notes, applying to this whole file:
* Python string operations are modelled on the character list `String.data`
  (one entry per code point, which matches Python string indexing).
* The detectors in auditor.py return a pair (tool id, evidence map).  No
  claim observes the evidence map, so the embedding returns only the tool
  identifier; the cascade order of each detector is translated exactly.
* Places where the Python code would raise a `TypeError`/`IndexError` on
  malformed TOML values (for example `"x" in 5`) are marked with a comment
  and given a harmless default; no claim exercises those corners.
-/

/-- Model of a TOML value as parsed by tomllib or held by tomlkit.
Tables are ordered association lists, matching Python dict order. -/
inductive TomlVal where
  | str (s : String)
  | int (n : Int)
  | bool (b : Bool)
  | arr (xs : List TomlVal)
  | table (kvs : List (String × TomlVal))

/-- Lookup in an ordered association list (Python `d[k]` / `k in d`).
Keys of parsed TOML tables are unique. -/
def tlookup : List (String × TomlVal) → String → Option TomlVal
  | [], _ => none
  | (k, v) :: rest, key => if k = key then some v else tlookup rest key

/-- Python `d[k] = v` on a dict/tomlkit table: replace in place if the key
exists, otherwise append at the end. -/
def tinsert : List (String × TomlVal) → String → TomlVal → List (String × TomlVal)
  | [], key, v => [(key, v)]
  | (k, w) :: rest, key, v =>
      if k = key then (key, v) :: rest else (k, w) :: tinsert rest key v

/-- Python `del d[k]`: remove the (unique) binding of the key. -/
def tremove : List (String × TomlVal) → String → List (String × TomlVal)
  | [], _ => []
  | (k, w) :: rest, key => if k = key then rest else (k, w) :: tremove rest key

/-- Bool test: does the char list `needle` occur as a prefix of `hay`. -/
def startsList : List Char → List Char → Bool
  | [], _ => true
  | _ :: _, [] => false
  | a :: as, b :: bs => a = b && startsList as bs

/-- Bool test: does `needle` occur as a contiguous sublist of `hay`
(Python substring containment `needle in hay`). -/
def subList (needle : List Char) : List Char → Bool
  | [] => startsList needle []
  | c :: t => startsList needle (c :: t) || subList needle t

/-- Python `key in v`.  For a table this is key membership, for a string it
is substring containment, for an array it is `==` membership against the
string elements.  Python raises `TypeError` for ints and bools; those
cases return `false` here (no claim reaches them). -/
def tomlContains (v : TomlVal) (key : String) : Bool :=
  match v with
  | .table t => (tlookup t key).isSome
  | .str s => subList key.data s.data
  | .arr xs => xs.any fun e => match e with | .str s => s = key | _ => false
  | .int _ => false
  | .bool _ => false

/-- Python `v.get(k, d)` on a value expected to be a table.  Python raises
`AttributeError` when `v` is not a dict; modelled by the default. -/
def tGetD (v : TomlVal) (key : String) (d : TomlVal) : TomlVal :=
  match v with
  | .table t => (tlookup t key).getD d
  | _ => d

/-- Python `v[k]` on a value expected to be a table, used only under a
`k in v` guard in the source; defaults to an empty table otherwise. -/
def tGetV (v : TomlVal) (key : String) : TomlVal := tGetD v key (.table [])

/-- The table payload of a value; empty for non-tables (where Python would
raise when iterating `.items()`). -/
def tTableOf (v : TomlVal) : List (String × TomlVal) :=
  match v with
  | .table t => t
  | _ => []

/-- Python truthiness of a TOML value (empty containers, zero, empty
string and False are falsy). -/
def tomlTruthy (v : TomlVal) : Bool :=
  match v with
  | .str s => s ≠ ""
  | .int n => n ≠ 0
  | .bool b => b
  | .arr xs => !xs.isEmpty
  | .table t => !t.isEmpty

/-- A TOML file on disk: parsed content, or present but unparseable
(`tomllib`/`tomlkit` raised and the reader returned None). -/
inductive TomlFile where
  | parsed (kvs : List (String × TomlVal))
  | invalid

/-- An ini-style file as read by configparser: sections of key/value
pairs, or present but unparseable. -/
inductive IniFile where
  | parsed (sections : List (String × List (String × String)))
  | invalid

/-- Model of `_read_toml` / `_read_toml_doc`: None for a missing or
malformed file, the parsed table otherwise. -/
def readTomlDict : Option TomlFile → Option (List (String × TomlVal))
  | some (.parsed kvs) => some kvs
  | some .invalid => none
  | none => none

/-- Python `if pyproject:` — the parse succeeded and the document is
non-empty (an empty dict is falsy). -/
def truthyDict : Option (List (String × TomlVal)) → Bool
  | some (_ :: _) => true
  | _ => false

/-- `"k1" in pyproject and "k2" in pyproject["k1"]` under an
`if pyproject:` guard. -/
def dictContains2 (py : Option (List (String × TomlVal))) (k1 k2 : String) : Bool :=
  match py with
  | some kvs =>
      match tlookup kvs k1 with
      | some v => tomlContains v k2
      | none => false
  | none => false

/-- configparser `has_section` on an optional ini file. -/
def iniHasSection (f : Option IniFile) (sec : String) : Bool :=
  match f with
  | some (.parsed sections) => sections.any fun s => s.1 = sec
  | _ => false

/-- Section contents as a dict (`dict(config.items(sec))`), empty when the
section is missing. -/
def iniSection (f : Option IniFile) (sec : String) : List (String × String) :=
  match f with
  | some (.parsed sections) =>
      match sections.find? (fun s => s.1 = sec) with
      | some s => s.2
      | none => []
  | _ => []

/-- String lookup in a string association list. -/
def slookup : List (String × String) → String → Option String
  | [], _ => none
  | (k, v) :: rest, key => if k = key then some v else slookup rest key

/-- One Python function definition as seen by the type-coverage analyzer:
whether it has a return annotation, and the annotation flags of its
positional, positional-only and keyword-only parameters (concatenated in
the order the source concatenates them). -/
structure PyDef where
  returns : Bool
  argAnns : List Bool
deriving DecidableEq

/-- One `*.py` file found by the recursive glob: its path components
(directories and filename) and its parsed function definitions, `none`
when `ast.parse` raises `SyntaxError`/`UnicodeDecodeError`. -/
structure PyFile where
  parts : List String
  content : Option (List PyDef)
deriving DecidableEq

/-- The project tree: every configuration file and directory the auditor
and upgrader code inspects or mutates, plus the backup directories the
upgrader creates.  A field of type `Option _` is `none` when the file does
not exist.  `backups` maps a backup directory name to the list of file
names copied into it. -/
structure FS where
  root_name : String := "project"
  pyproject : Option TomlFile := none
  uv_lock : Bool := false
  poetry_lock : Bool := false
  pipfile : Option TomlFile := none
  pipfile_lock : Bool := false
  requirements_txt : Option (List String) := none
  requirements_dev_txt : Option (List String) := none
  setup_py : Bool := false
  setup_cfg : Option IniFile := none
  ruff_toml : Bool := false
  flake8_file : Option IniFile := none
  pylintrc_dot : Bool := false
  pylintrc_plain : Bool := false
  isort_cfg : Bool := false
  mypy_ini : Bool := false
  dot_mypy_ini : Bool := false
  pyrightconfig_json : Bool := false
  pytype_cfg : Bool := false
  style_yapf : Bool := false
  pre_commit_config : Bool := false
  gh_workflows : Bool := false
  gitlab_ci : Bool := false
  travis_ci : Bool := false
  circleci : Bool := false
  azure_pipelines : Bool := false
  readme_md : Bool := false
  py_files : List PyFile := []
  backups : List (String × List String) := []

/-- detect_package_manager (auditor.py): prioritized cascade, first match
wins; only the tool identifier is modelled. -/
def detect_package_manager (fs : FS) : Option String :=
  if fs.uv_lock then some "uv"
  else if fs.poetry_lock then some "poetry"
  else
    let py := readTomlDict fs.pyproject
    if truthyDict py && dictContains2 py "tool" "poetry" then some "poetry"
    else if truthyDict py && dictContains2 py "tool" "pdm" then some "pdm"
    else if truthyDict py && dictContains2 py "tool" "hatch" then some "hatch"
    else if truthyDict py && dictContains2 py "tool" "flit" then some "flit"
    else if fs.pipfile.isSome || fs.pipfile_lock then some "pipenv"
    else if fs.requirements_txt.isSome then some "pip"
    else if fs.setup_py then some "setuptools"
    else if fs.setup_cfg.isSome then some "setuptools"
    else none

/-- detect_linter (auditor.py). -/
def detect_linter (fs : FS) : Option String :=
  let py := readTomlDict fs.pyproject
  if fs.ruff_toml then some "ruff"
  else if truthyDict py && dictContains2 py "tool" "ruff" then some "ruff"
  else if fs.flake8_file.isSome then some "flake8"
  else if iniHasSection fs.setup_cfg "flake8" then some "flake8"
  else if fs.pylintrc_dot then some "pylint"
  else if fs.pylintrc_plain then some "pylint"
  else if truthyDict py && dictContains2 py "tool" "pylint" then some "pylint"
  else none

/-- The `pyproject["tool"]["X"]` value, used under guards that checked the
keys exist. -/
def pyTool (py : Option (List (String × TomlVal))) (tool : String) : TomlVal :=
  match py with
  | some kvs => tGetV (tGetV (.table kvs) "tool") tool
  | none => .table []

/-- detect_formatter (auditor.py). -/
def detect_formatter (fs : FS) : Option String :=
  let py := readTomlDict fs.pyproject
  if truthyDict py && dictContains2 py "tool" "ruff"
      && (tomlContains (pyTool py "ruff") "format"
          || tomlContains (pyTool py "ruff") "line-length") then some "ruff"
  else if truthyDict py && dictContains2 py "tool" "black" then some "black"
  else if truthyDict py && dictContains2 py "tool" "autopep8" then some "autopep8"
  else if iniHasSection fs.setup_cfg "autopep8" then some "autopep8"
  else if fs.style_yapf then some "yapf"
  else if truthyDict py && dictContains2 py "tool" "yapf" then some "yapf"
  else none

/-- The `select` test of detect_import_sorter:
`"I" in select or any(s.startswith("I") for s in select if isinstance(s, str))`.
For a string value, Python `in` is substring containment and iteration
yields one-character strings; for other non-list values Python raises
(modelled as false). -/
def selectHasI (sel : TomlVal) : Bool :=
  match sel with
  | .arr xs =>
      (xs.any fun e => match e with | .str s => s = "I" | _ => false)
        || (xs.any fun e =>
              match e with
              | .str s => startsList ['I'] s.data
              | _ => false)
  | .str s => subList ['I'] s.data || s.data.any (fun c => c = 'I')
  | _ => false

/-- detect_import_sorter (auditor.py). -/
def detect_import_sorter (fs : FS) : Option String :=
  let py := readTomlDict fs.pyproject
  let ruffC := pyTool py "ruff"
  if truthyDict py && dictContains2 py "tool" "ruff"
      && tomlContains ruffC "lint"
      && tomlContains (tGetD ruffC "lint" (.table [])) "isort" then some "ruff"
  else if truthyDict py && dictContains2 py "tool" "ruff"
      && tomlContains ruffC "lint"
      && selectHasI (tGetD (tGetD ruffC "lint" (.table [])) "select" (.arr [])) then
    some "ruff"
  else if fs.isort_cfg then some "isort"
  else if truthyDict py && dictContains2 py "tool" "isort" then some "isort"
  else if iniHasSection fs.setup_cfg "isort" then some "isort"
  else none

/-- detect_type_checker (auditor.py). -/
def detect_type_checker (fs : FS) : Option String :=
  let py := readTomlDict fs.pyproject
  if truthyDict py && dictContains2 py "tool" "basedpyright" then some "basedpyright"
  else if fs.pyrightconfig_json then some "pyright"
  else if truthyDict py && dictContains2 py "tool" "pyright" then some "pyright"
  else if fs.mypy_ini then some "mypy"
  else if fs.dot_mypy_ini then some "mypy"
  else if truthyDict py && dictContains2 py "tool" "mypy" then some "mypy"
  else if iniHasSection fs.setup_cfg "mypy" then some "mypy"
  else if fs.pytype_cfg then some "pytype"
  else none

/-- detect_pre_commit (auditor.py). -/
def detect_pre_commit (fs : FS) : Bool := fs.pre_commit_config

/-- detect_ci (auditor.py). -/
def detect_ci (fs : FS) : Option String :=
  if fs.gh_workflows then some "github-actions"
  else if fs.gitlab_ci then some "gitlab-ci"
  else if fs.travis_ci then some "travis-ci"
  else if fs.circleci then some "circleci"
  else if fs.azure_pipelines then some "azure-pipelines"
  else none

/-- Severity levels (auditor.py `Severity`). -/
inductive Severity where
  | info
  | warning
  | error
  | critical
deriving DecidableEq

/-- Categories of audit findings (auditor.py `AuditCategory`). -/
inductive AuditCategory where
  | tooling
  | configuration
  | dependencies
  | security
  | code_quality
deriving DecidableEq

/-- A single audit recommendation (auditor.py `Recommendation`); file
paths are modelled as strings. -/
structure Recommendation where
  category : AuditCategory
  message : String
  severity : Severity
  file_path : Option String := none
  action : Option String := none
deriving DecidableEq

/-- Result of a project audit (auditor.py `AuditResult`); the project
path carries no information in the model and is omitted. -/
structure AuditResult where
  recommendations : List Recommendation := []
  score : Int := 100
  tooling_detected : List (String × String) := []
deriving DecidableEq

/-- `AuditResult.critical_count`. -/
def critical_count (r : AuditResult) : Nat :=
  (r.recommendations.filter fun x => x.severity == Severity.critical).length

/-- `AuditResult.error_count`. -/
def error_count (r : AuditResult) : Nat :=
  (r.recommendations.filter fun x => x.severity == Severity.error).length

/-- `AuditResult.warning_count`. -/
def warning_count (r : AuditResult) : Nat :=
  (r.recommendations.filter fun x => x.severity == Severity.warning).length

/-- `AuditResult.info_count`. -/
def info_count (r : AuditResult) : Nat :=
  (r.recommendations.filter fun x => x.severity == Severity.info).length

/-- The directory names excluded by analyze_type_coverage. -/
def excludePatterns : List String :=
  ["venv", ".venv", "env", ".env", "node_modules", "__pycache__", ".git",
   "build", "dist"]

/-- `any(part in exclude_patterns for part in py_file.parts)`. -/
def pyFileExcluded (pf : PyFile) : Bool :=
  pf.parts.any fun p => excludePatterns.contains p

/-- A function definition counts as annotated when it has a return
annotation or any parameter annotation. -/
def defAnnotated (d : PyDef) : Bool := d.returns || d.argAnns.any id

/-- analyze_type_coverage (auditor.py): walk the non-excluded parseable
files, count the function definitions and the annotated ones; coverage is
100 for an empty count, else `typed / total * 100` (the Python float is
modelled as an exact rational). Returns (coverage, typed, total). -/
def analyze_type_coverage (fs : FS) : ℚ × Nat × Nat :=
  let counts := fs.py_files.foldl
    (fun (acc : Nat × Nat) pf =>
      if pyFileExcluded pf then acc
      else
        match pf.content with
        | none => acc
        | some ds =>
            (acc.1 + (ds.filter defAnnotated).length, acc.2 + ds.length))
    (0, 0)
  if counts.2 = 0 then (100, 0, 0)
  else (((counts.1 : ℚ) / (counts.2 : ℚ)) * 100, counts.1, counts.2)

/-- Python `f"{x:.0f}"`: round half to even to an integer. The Python
value is a binary float; the model rounds the exact rational, which
agrees except on floats that are not exactly representable ties. -/
def formatFloat0 (q : ℚ) : String :=
  let n := q.floor
  let frac := q - (n : ℚ)
  let r := if frac > 1/2 then n + 1
           else if frac < 1/2 then n
           else if n % 2 = 0 then n else n + 1
  toString r

/-- Recommendation with no action (auditor.py constructs them inline). -/
def mkRec (c : AuditCategory) (m : String) (s : Severity) : Recommendation :=
  { category := c, message := m, severity := s }

/-- Recommendation with an action string. -/
def mkRecA (c : AuditCategory) (m : String) (s : Severity) (a : String) :
    Recommendation :=
  { category := c, message := m, severity := s, action := some a }

/-- Package manager branch of _generate_tooling_recommendations. -/
def pkgRecs (pkg : Option String) : List Recommendation :=
  if pkg = some "poetry" then
    [mkRecA .tooling
      "Consider migrating from Poetry to uv for faster dependency resolution"
      .info "quickforge upgrade . --from poetry"]
  else if pkg = some "pip" then
    [mkRecA .tooling
      "Consider migrating from pip/requirements.txt to uv with pyproject.toml"
      .info "quickforge upgrade . --from pip"]
  else if pkg = some "pipenv" then
    [mkRecA .tooling
      "Consider migrating from Pipenv to uv for better performance"
      .info "quickforge upgrade . --from pipenv"]
  else if pkg = some "setuptools" then
    [mkRecA .tooling
      "Consider migrating from setup.py to pyproject.toml (PEP 621)"
      .warning "quickforge upgrade . --from setuptools"]
  else if pkg = none then
    [mkRec .tooling
      "No package manager detected. Consider adding a pyproject.toml"
      .warning]
  else []

/-- Linter branch of _generate_tooling_recommendations (the last arm also
consults the detected formatter). -/
def linterRecs (linter formatter : Option String) : List Recommendation :=
  if linter = some "flake8" then
    [mkRecA .tooling
      "Consider migrating from flake8 to ruff for better performance"
      .info "quickforge upgrade . (will migrate flake8 to ruff)"]
  else if linter = some "pylint" then
    [mkRecA .tooling
      "Consider migrating from pylint to ruff for better performance"
      .info "quickforge upgrade . (will migrate pylint to ruff)"]
  else if linter = none ∧ formatter ≠ some "ruff" then
    [mkRecA .tooling
      "No linter detected. Consider adding ruff for code quality"
      .warning "quickforge add pre-commit (includes ruff)"]
  else []

/-- Formatter branch of _generate_tooling_recommendations. -/
def formatterRecs (formatter : Option String) : List Recommendation :=
  if formatter = some "black" then
    [mkRecA .tooling
      "Consider migrating from black to ruff format for better performance"
      .info "quickforge upgrade . (will migrate black to ruff)"]
  else if formatter = some "autopep8" then
    [mkRec .tooling "Consider migrating from autopep8 to ruff format" .info]
  else if formatter = some "yapf" then
    [mkRec .tooling "Consider migrating from yapf to ruff format" .info]
  else []

/-- Import sorter branch of _generate_tooling_recommendations. -/
def sorterRecs (sorter : Option String) : List Recommendation :=
  if sorter = some "isort" then
    [mkRecA .tooling
      "Consider migrating from isort to ruff (handles import sorting)"
      .info "quickforge upgrade . (will migrate isort to ruff)"]
  else []

/-- Type checker branch of _generate_tooling_recommendations. -/
def tcRecs (tc : Option String) : List Recommendation :=
  if tc = some "mypy" then
    [mkRecA .tooling
      "Consider migrating from mypy to basedpyright for stricter checking"
      .info "quickforge upgrade . (will migrate mypy to basedpyright)"]
  else if tc = some "pytype" then
    [mkRec .tooling "Consider migrating from pytype to basedpyright" .info]
  else if tc = none then
    [mkRec .tooling "No type checker detected. Consider adding basedpyright"
      .warning]
  else []

/-- Pre-commit branch of _generate_tooling_recommendations. -/
def preCommitRecs (hasPreCommit : Bool) : List Recommendation :=
  if hasPreCommit then []
  else
    [mkRecA .tooling "No pre-commit hooks detected. Consider adding pre-commit"
      .info "quickforge add pre-commit"]

/-- CI branch of _generate_tooling_recommendations. -/
def ciRecs (ci : Option String) : List Recommendation :=
  if ci = none then
    [mkRecA .tooling
      "No CI/CD configuration detected. Consider adding GitHub Actions"
      .info "quickforge add github-actions"]
  else []

/-- _generate_tooling_recommendations (auditor.py): the appends of the
sequential branches, as one concatenation in source order. -/
def _generate_tooling_recommendations (pkg linter formatter sorter tc :
    Option String) (hasPreCommit : Bool) (ci : Option String) :
    List Recommendation :=
  pkgRecs pkg ++ linterRecs linter formatter ++ formatterRecs formatter
    ++ sorterRecs sorter ++ tcRecs tc ++ preCommitRecs hasPreCommit
    ++ ciRecs ci

/-- _generate_code_quality_recommendations (auditor.py). -/
def _generate_code_quality_recommendations (cov : ℚ) (typed total : Nat) :
    List Recommendation :=
  if total = 0 then []
  else if cov < 25 then
    [mkRec .code_quality
      ("Low type annotation coverage (" ++ formatFloat0 cov ++ "%). Only "
        ++ toString typed ++ "/" ++ toString total
        ++ " functions have type hints")
      .warning]
  else if cov < 50 then
    [mkRec .code_quality
      ("Moderate type annotation coverage (" ++ formatFloat0 cov ++ "%). "
        ++ toString typed ++ "/" ++ toString total
        ++ " functions have type hints")
      .info]
  else if cov < 80 then
    [mkRec .code_quality
      ("Good type annotation coverage (" ++ formatFloat0 cov
        ++ "%). Consider improving to 80%+")
      .info]
  else []

/-- One iteration of the deduction loop of _calculate_score. -/
def scoreStep (s : Int) (r : Recommendation) : Int :=
  match r.severity with
  | .critical => s - 20
  | .error => s - 10
  | .warning => s - 5
  | .info => s - 1

/-- _calculate_score (auditor.py): fold the severity deductions over the
recommendation list starting from 100, then clamp to [0, 100]. -/
def _calculate_score (recs : List Recommendation) : Int :=
  max 0 (min 100 (recs.foldl scoreStep 100))

/-- Number of recommendations of a given severity in a list (the count
the AuditResult counters compute on the list of a result). -/
def countSev (recs : List Recommendation) (s : Severity) : Nat :=
  (recs.filter fun r => r.severity == s).length

/-- Optional entry of the tooling_detected mapping. -/
def optEntry (key : String) : Option String → List (String × String)
  | some v => [(key, v)]
  | none => []

/-- The tooling_detected mapping built by audit_project: an
insertion-ordered dict with distinct literal keys, modelled as the
concatenation of its optional entries, in assignment order. -/
def toolingBase (pkg linter formatter sorter tc : Option String)
    (hasPreCommit : Bool) (ci : Option String) (cov : ℚ) :
    List (String × String) :=
  optEntry "package_manager" pkg ++ optEntry "linter" linter
    ++ optEntry "formatter" formatter ++ optEntry "import_sorter" sorter
    ++ optEntry "type_checker" tc
    ++ (if hasPreCommit then [("pre_commit", "configured")] else [])
    ++ optEntry "ci" ci
    ++ [("type_coverage", formatFloat0 cov ++ "%")]

/-- The body of audit_project on a valid directory: run the detectors,
record the detected tools, compute type coverage, short-circuit when the
tooling is modern, otherwise generate recommendations; finally score. -/
def auditFS (fs : FS) : AuditResult :=
  let pkg := detect_package_manager fs
  let linter := detect_linter fs
  let formatter := detect_formatter fs
  let sorter := detect_import_sorter fs
  let tc := detect_type_checker fs
  let hasPreCommit := detect_pre_commit fs
  let ci := detect_ci fs
  let cov := analyze_type_coverage fs
  let tooling0 :=
    toolingBase pkg linter formatter sorter tc hasPreCommit ci cov.1
  let isModern := pkg == some "uv" && linter == some "ruff"
    && (tc == some "basedpyright" || tc == some "pyright") && hasPreCommit
  let recs :=
    if isModern then []
    else
      _generate_tooling_recommendations pkg linter formatter sorter tc
          hasPreCommit ci
        ++ _generate_code_quality_recommendations cov.1 cov.2.1 cov.2.2
  let tooling := if isModern then tooling0 ++ [("status", "modern")] else tooling0
  { recommendations := recs,
    score := _calculate_score recs,
    tooling_detected := tooling }

/-- The exception audit_project raises for an invalid root path
(FileNotFoundError / NotADirectoryError). -/
inductive InputError where
  | fileNotFound
  | notADirectory
deriving DecidableEq

/-- The root path argument: missing, existing but not a directory, or a
directory with the given contents. -/
inductive RootPath where
  | missing
  | notDir
  | dir (fs : FS)

/-- audit_project (auditor.py): raise for an invalid path, otherwise
audit the directory. -/
def audit_project (root : RootPath) : Except InputError AuditResult :=
  match root with
  | .missing => .error .fileNotFound
  | .notDir => .error .notADirectory
  | .dir fs => .ok (auditFS fs)

/-- Source package managers to migrate from (upgrader.py `SourceTool`). -/
inductive SourceTool where
  | poetry
  | pip
  | pipenv
  | setuptools
deriving DecidableEq

/-- `SourceTool(from_tool)` with the ValueError fallback to None. -/
def parseSourceTool (s : String) : Option SourceTool :=
  if s = "poetry" then some .poetry
  else if s = "pip" then some .pip
  else if s = "pipenv" then some .pipenv
  else if s = "setuptools" then some .setuptools
  else none

/-- Types of migrations (upgrader.py `MigrationType`). -/
inductive MigrationType where
  | package_manager
  | linter
  | formatter
  | type_checker
  | config
  | ci_cd
deriving DecidableEq

/-- A single migration step (upgrader.py `MigrationStep`); affected file
paths are modelled as names relative to the project root. -/
structure MigrationStep where
  migration_type : MigrationType
  description : String
  source : String
  target : String
  files_affected : List String := []
  reversible : Bool := true
deriving DecidableEq

/-- Result of a project upgrade (upgrader.py `UpgradeResult`). -/
structure UpgradeResult where
  success : Bool
  changes_made : List String := []
  backup_path : Option String := none
  errors : List String := []
  migration_steps : List MigrationStep := []
deriving DecidableEq

/-- detect_source_tool (upgrader.py): map the detected package manager
through the legacy-tool table. -/
def detect_source_tool (fs : FS) : Option SourceTool :=
  match detect_package_manager fs with
  | some s => parseSourceTool s
  | none => none

/-- create_migration_plan (upgrader.py): resolve the source tool, then
append one step per category in the fixed order package manager →
formatter → import sorter → linter → type checker. -/
def create_migration_plan (fs : FS) (from_tool : Option String) :
    List MigrationStep :=
  let source_tool :=
    match from_tool with
    | some s => parseSourceTool s
    | none => detect_source_tool fs
  let pkgSteps :=
    if source_tool = some SourceTool.poetry then
      [{ migration_type := .package_manager,
         description := "Convert Poetry pyproject.toml to PEP 621 format for uv",
         source := "poetry", target := "uv",
         files_affected := ["pyproject.toml", "poetry.lock"] }]
    else if source_tool = some SourceTool.pip then
      [{ migration_type := .package_manager,
         description := "Convert requirements.txt to pyproject.toml for uv",
         source := "pip", target := "uv",
         files_affected := ["requirements.txt", "pyproject.toml"] }]
    else if source_tool = some SourceTool.pipenv then
      [{ migration_type := .package_manager,
         description := "Convert Pipfile to pyproject.toml for uv",
         source := "pipenv", target := "uv",
         files_affected := ["Pipfile", "pyproject.toml"] }]
    else if source_tool = some SourceTool.setuptools then
      [{ migration_type := .package_manager,
         description := "Convert setup.py/setup.cfg to pyproject.toml",
         source := "setuptools", target := "uv",
         files_affected := ["setup.py", "setup.cfg", "pyproject.toml"] }]
    else []
  let fmtSteps :=
    if detect_formatter fs = some "black" then
      [{ migration_type := .formatter,
         description := "Migrate Black configuration to ruff format",
         source := "black", target := "ruff",
         files_affected := ["pyproject.toml"] }]
    else []
  let sorterSteps :=
    if detect_import_sorter fs = some "isort" then
      [{ migration_type := .linter,
         description := "Migrate isort configuration to ruff lint.isort",
         source := "isort", target := "ruff",
         files_affected := ["pyproject.toml", ".isort.cfg"] }]
    else []
  let linterSteps :=
    if detect_linter fs = some "flake8" then
      [{ migration_type := .linter,
         description := "Migrate flake8 configuration to ruff lint",
         source := "flake8", target := "ruff",
         files_affected := ["pyproject.toml", ".flake8"] }]
    else []
  let tcSteps :=
    if detect_type_checker fs = some "mypy" then
      [{ migration_type := .type_checker,
         description := "Migrate mypy configuration to basedpyright",
         source := "mypy", target := "basedpyright",
         files_affected := ["pyproject.toml", "mypy.ini"] }]
    else []
  pkgSteps ++ fmtSteps ++ sorterSteps ++ linterSteps ++ tcSteps

/-- The well-known file names create_backup copies, in source order. -/
def backupFiles : List String :=
  ["pyproject.toml", "poetry.lock", "requirements.txt",
   "requirements-dev.txt", "setup.py", "setup.cfg", ".flake8", ".isort.cfg",
   "mypy.ini", ".mypy.ini", "Pipfile", "Pipfile.lock",
   ".pre-commit-config.yaml"]

/-- Existence test for a well-known file name in the modelled tree. -/
def fileExistsIn (fs : FS) (name : String) : Bool :=
  if name = "pyproject.toml" then fs.pyproject.isSome
  else if name = "poetry.lock" then fs.poetry_lock
  else if name = "requirements.txt" then fs.requirements_txt.isSome
  else if name = "requirements-dev.txt" then fs.requirements_dev_txt.isSome
  else if name = "setup.py" then fs.setup_py
  else if name = "setup.cfg" then fs.setup_cfg.isSome
  else if name = ".flake8" then fs.flake8_file.isSome
  else if name = ".isort.cfg" then fs.isort_cfg
  else if name = "mypy.ini" then fs.mypy_ini
  else if name = ".mypy.ini" then fs.dot_mypy_ini
  else if name = "Pipfile" then fs.pipfile.isSome
  else if name = "Pipfile.lock" then fs.pipfile_lock
  else if name = ".pre-commit-config.yaml" then fs.pre_commit_config
  else false

/-- The name of the backup directory for a timestamp.  The timestamp
string (`datetime.now(UTC).strftime("%Y%m%d_%H%M%S")`) is
nondeterministic in the source and is passed as a parameter here. -/
def backupDirName (timestamp : String) : String :=
  ".quickforge_backup_" ++ timestamp

/-- create_backup (upgrader.py): make the timestamped directory inside the
project root and copy each existing well-known config file into it.
Returns the backup directory name and the updated tree. -/
def create_backup (fs : FS) (timestamp : String) : String × FS :=
  let dir := backupDirName timestamp
  let copied := backupFiles.filter fun name => fileExistsIn fs name
  (dir, { fs with backups := fs.backups ++ [(dir, copied)] })

/-- The operator characters of the Python test `spec[0] in "<>=!"`. -/
def opChars : List Char := ['<', '>', '=', '!']

/-- Conversion of one string version spec in _migrate_poetry_to_uv:
caret/tilde prefixes become a minimum-version specifier, a leading
operator keeps the spec, anything else becomes an exact pin.  Python
raises IndexError on an empty spec (last case, unreachable for claims). -/
def convertSpecStr (name spec : String) : String :=
  match spec.data with
  | '^' :: rest => name ++ ">=" ++ String.mk rest
  | '~' :: rest => name ++ ">=" ++ String.mk rest
  | c :: _ => if opChars.contains c then name ++ spec else name ++ "==" ++ spec
  | [] => name ++ "==" ++ spec

/-- One entry of the main dependency loop of _migrate_poetry_to_uv:
string specs are converted; table specs use their `version` key (an
absent or empty version keeps the bare name); other values are skipped.
A non-string `version` value would raise in Python (modelled as the bare
name). -/
def convertDepEntry (name : String) (spec : TomlVal) : List String :=
  match spec with
  | .str s => [convertSpecStr name s]
  | .table t =>
      match tlookup t "version" with
      | some (.str v) =>
          match v.data with
          | '^' :: rest => [name ++ ">=" ++ String.mk rest]
          | '~' :: rest => [name ++ ">=" ++ String.mk rest]
          | c :: _ =>
              if opChars.contains c then [name ++ v] else [name ++ "==" ++ v]
          | [] => [name]
      | some _ => [name]
      | none => [name]
  | _ => []

/-- One entry of the dev-dependency loops of _migrate_poetry_to_uv:
string specs are converted, any other value keeps the bare name. -/
def convertDevEntry (name : String) (spec : TomlVal) : String :=
  match spec with
  | .str s => convertSpecStr name s
  | _ => name

/-- Characters stripped by Python `str.strip()` with no argument
(ASCII whitespace; the uncommon Unicode whitespace characters are not
modelled). -/
def pyIsSpace (c : Char) : Bool := [' ', '\t', '\n', '\r', '\x0b', '\x0c'].contains c

/-- Python `s.strip()`. -/
def pyStrip (s : String) : String :=
  String.mk (((s.data.dropWhile pyIsSpace).reverse.dropWhile pyIsSpace).reverse)

/-- Chars of an author string before the first matching `>` (None when no
`>` occurs). -/
def takeUntilGt : List Char → Option (List Char)
  | [] => none
  | '>' :: _ => some []
  | c :: t => (takeUntilGt t).map fun l => c :: l

/-- Model of `re.match(r"(.+?)\s*<(.+?)>", author)` followed by
`group(1).strip()` and `group(2)`: find the first `<` preceded by at
least one character and followed, at distance at least two, by a `>`;
the name is the stripped text before the `<` (the lazy group plus the
`\s*` gap collapse under strip), the email is the text between.  The
accumulator holds the reversed consumed prefix. -/
def parseAuthorAux : List Char → List Char → Option (String × String)
  | _, [] => none
  | pre, c :: rest =>
      if c = '<' ∧ pre ≠ [] then
        match rest with
        | [] => none
        | r0 :: rtail =>
            match takeUntilGt rtail with
            | some before =>
                some (pyStrip (String.mk pre.reverse), String.mk (r0 :: before))
            | none => parseAuthorAux (c :: pre) rest
      else parseAuthorAux (c :: pre) rest

/-- The author regex match of _migrate_poetry_to_uv. -/
def parseAuthorMatch (s : String) : Option (String × String) :=
  parseAuthorAux [] s.data

/-- One converted author entry: `{name, email}` on a regex match,
`{name}` otherwise. -/
def authorVal (s : String) : TomlVal :=
  match parseAuthorMatch s with
  | some (n, e) => .table [("name", .str n), ("email", .str e)]
  | none => .table [("name", .str s)]

/-- The authors loop of _migrate_poetry_to_uv: only string items are
converted.  Iterating a string value in Python yields its characters
(each a one-character string); iterating an int raises (modelled empty). -/
def authorsOf (v : TomlVal) : List TomlVal :=
  match v with
  | .arr xs =>
      xs.filterMap fun a =>
        match a with
        | .str s => some (authorVal s)
        | _ => none
  | .str s => s.data.map fun c => authorVal (String.mk [c])
  | _ => []

/-- Human-readable form a Python f-string gives a scalar tomlkit value in
the change messages (containers are abbreviated; no claim reads these
messages). -/
def tomlDisplay (v : TomlVal) : String :=
  match v with
  | .str s => s
  | .int n => toString n
  | .bool b => if b then "True" else "False"
  | .arr _ => "[...]"
  | .table _ => "<table>"

/-- The `[build-system]` table _migrate_poetry_to_uv installs. -/
def buildSystemTable : TomlVal :=
  .table [("requires", .arr [.str "hatchling"]),
          ("build-backend", .str "hatchling.build")]

/-- Update the table payload at a key (used for
`project["optional-dependencies"]["dev"] = dev_deps`, where Python would
raise if the value were not a table — left unchanged here). -/
def updateTableAt (kvs : List (String × TomlVal)) (key : String)
    (f : List (String × TomlVal) → List (String × TomlVal)) :
    List (String × TomlVal) :=
  match tlookup kvs key with
  | some (.table t) => tinsert kvs key (.table (f t))
  | _ => kvs

/-- The Poetry requires-python conversion: `^`/`~` become `>=`. -/
def convertPyReq (s : String) : String :=
  match s.data with
  | '^' :: rest => ">=" ++ String.mk rest
  | '~' :: rest => ">=" ++ String.mk rest
  | _ => s

/-- The document rewrite of _migrate_poetry_to_uv, from the point where
`[tool.poetry]` is known to exist: returns the new document and the
change messages accumulated in source order.  The in-place mutations of
the aliased `project` table are modelled by building its final value and
storing it at its insertion position. -/
def poetryTransformDoc (readmeExists : Bool)
    (doc0 : List (String × TomlVal)) :
    List (String × TomlVal) × List String :=
  let poetry := tGetV (tGetV (.table doc0) "tool") "poetry"
  let doc1 :=
    if (tlookup doc0 "project").isSome then doc0
    else doc0 ++ [("project", .table [])]
  let proj0 := tTableOf ((tlookup doc1 "project").getD (.table []))
  let step1 :=
    if tomlContains poetry "name" then
      (tinsert proj0 "name" (tGetV poetry "name"),
       ["Migrated project name: " ++ tomlDisplay (tGetV poetry "name")])
    else (proj0, [])
  let step2 :=
    if tomlContains poetry "version" then
      (tinsert step1.1 "version" (tGetV poetry "version"),
       step1.2 ++ ["Migrated version: " ++ tomlDisplay (tGetV poetry "version")])
    else step1
  let step3 :=
    if tomlContains poetry "description" then
      (tinsert step2.1 "description" (tGetV poetry "description"),
       step2.2 ++ ["Migrated description"])
    else step2
  let step4 :=
    if tomlContains poetry "authors" then
      let authors := authorsOf (tGetV poetry "authors")
      if !authors.isEmpty then
        (tinsert step3.1 "authors" (.arr authors), step3.2 ++ ["Migrated authors"])
      else step3
    else step3
  let step5 :=
    if tomlContains poetry "readme" then
      (tinsert step4.1 "readme" (tGetV poetry "readme"), step4.2)
    else if readmeExists then
      (tinsert step4.1 "readme" (.str "README.md"), step4.2)
    else step4
  let step6 :=
    if tomlContains poetry "license" then
      (tinsert step5.1 "license" (.table [("text", tGetV poetry "license")]),
       step5.2 ++ ["Migrated license: " ++ tomlDisplay (tGetV poetry "license")])
    else step5
  let step7 :=
    if tomlContains poetry "keywords" then
      (tinsert step6.1 "keywords" (tGetV poetry "keywords"),
       step6.2 ++ ["Migrated keywords"])
    else step6
  let step8 :=
    if tomlContains poetry "classifiers" then
      (tinsert step7.1 "classifiers" (tGetV poetry "classifiers"),
       step7.2 ++ ["Migrated classifiers"])
    else step7
  let pdeps := tGetD poetry "dependencies" (.table [])
  let step9 :=
    if tomlContains pdeps "python" then
      match tGetV pdeps "python" with
      | .str r =>
          let req := convertPyReq r
          (tinsert step8.1 "requires-python" (.str req),
           step8.2 ++ ["Migrated Python requirement: " ++ req])
      | _ => step8
    else step8
  let deps :=
    (tTableOf pdeps).foldl
      (fun acc kv =>
        if kv.1 = "python" then acc else acc ++ convertDepEntry kv.1 kv.2)
      []
  let step10 :=
    if !deps.isEmpty then
      (tinsert step9.1 "dependencies" (.arr (deps.map TomlVal.str)),
       step9.2 ++ ["Migrated " ++ toString deps.length ++ " dependencies"])
    else step9
  let devSec := tGetV (tGetV poetry "group") "dev"
  let dd1 :=
    if tomlContains poetry "group"
        && tomlContains (tGetV poetry "group") "dev"
        && tomlContains devSec "dependencies" then
      (tTableOf (tGetV devSec "dependencies")).foldl
        (fun acc kv => acc ++ [convertDevEntry kv.1 kv.2]) []
    else []
  let dd2 :=
    if tomlContains poetry "dev-dependencies" then
      (tTableOf (tGetV poetry "dev-dependencies")).foldl
        (fun acc kv => acc ++ [convertDevEntry kv.1 kv.2]) []
    else []
  let devDeps := dd1 ++ dd2
  let step11 :=
    if !devDeps.isEmpty then
      let withOpt :=
        if (tlookup step10.1 "optional-dependencies").isSome then step10.1
        else step10.1 ++ [("optional-dependencies", .table [])]
      (updateTableAt withOpt "optional-dependencies"
         (fun t => tinsert t "dev" (.arr (devDeps.map TomlVal.str))),
       step10.2 ++ ["Migrated " ++ toString devDeps.length ++ " dev dependencies"])
    else step10
  let step12 :=
    if tomlContains poetry "scripts" then
      (tinsert step11.1 "scripts" (tGetV poetry "scripts"),
       step11.2 ++ ["Migrated scripts/entry points"])
    else step11
  let doc2 := tinsert doc1 "project" (.table step12.1)
  let doc3 := tinsert doc2 "build-system" buildSystemTable
  let changes3 := step12.2 ++ ["Updated build-system to use hatchling"]
  let doc4 :=
    match tlookup doc3 "tool" with
    | some (.table tt) =>
        let tt2 := tremove tt "poetry"
        if tt2.isEmpty then tremove doc3 "tool" else tinsert doc3 "tool" (.table tt2)
    | _ => doc3
  (doc4, changes3 ++ ["Removed [tool.poetry] section"])

/-- _migrate_poetry_to_uv (upgrader.py) at filesystem level: early
returns for a missing, unparseable or empty (falsy) document and for a
missing `[tool.poetry]` section; otherwise rewrite the document and, when
not in dry-run, write it back and delete poetry.lock. -/
def _migrate_poetry_to_uv (fs : FS) (dry_run : Bool) : List String × FS :=
  match fs.pyproject with
  | none => (["No pyproject.toml found"], fs)
  | some .invalid => (["Could not parse pyproject.toml"], fs)
  | some (.parsed doc) =>
      if doc.isEmpty then (["Could not parse pyproject.toml"], fs)
      else if !dictContains2 (some doc) "tool" "poetry" then
        (["No [tool.poetry] section found"], fs)
      else
        let r := poetryTransformDoc fs.readme_md doc
        if dry_run then (r.2, fs)
        else
          let fs2 := { fs with pyproject := some (.parsed r.1) }
          let changes := r.2 ++ ["Wrote updated pyproject.toml"]
          if fs2.poetry_lock then
            (changes ++ ["Removed poetry.lock"], { fs2 with poetry_lock := false })
          else (changes, fs2)

/-- _ensure_pyproject_exists (upgrader.py): the parsed document when the
file exists and parses to something truthy, else a fresh minimal
document (its leading tomlkit comment carries no data and is not
modelled). -/
def _ensure_pyproject_exists (fs : FS) : List (String × TomlVal) :=
  match fs.pyproject with
  | some (.parsed (k :: ks)) => k :: ks
  | _ =>
      [("project",
        .table [("name", .str fs.root_name), ("version", .str "0.1.0"),
                ("requires-python", .str ">=3.11")]),
       ("build-system",
        .table [("requires", .arr [.str "hatchling"]),
                ("build-backend", .str "hatchling.build")])]

/-- `if "project" not in doc: doc["project"] = tomlkit.table()`. -/
def ensureKeyTable (kvs : List (String × TomlVal)) (key : String) :
    List (String × TomlVal) :=
  if (tlookup kvs key).isSome then kvs else tinsert kvs key (.table [])

/-- One requirements.txt line of the main loop: strip, skip blanks,
comments and `-r`/`-e` directives. -/
def reqLineKeep (raw : String) : Option String :=
  let line := pyStrip raw
  if line = "" then none
  else if startsList ['#'] line.data then none
  else if startsList ['-', 'r'] line.data || startsList ['-', 'e'] line.data then
    none
  else some line

/-- One requirements-dev.txt line: strip, skip blanks, comments and every
line starting with a dash. -/
def reqDevLineKeep (raw : String) : Option String :=
  let line := pyStrip raw
  if line = "" then none
  else if startsList ['#'] line.data then none
  else if startsList ['-'] line.data then none
  else some line

/-- _migrate_requirements_to_uv (upgrader.py). -/
def _migrate_requirements_to_uv (fs : FS) (dry_run : Bool) : List String × FS :=
  match fs.requirements_txt with
  | none => (["No requirements.txt found"], fs)
  | some lines =>
      let deps := lines.filterMap reqLineKeep
      if deps.isEmpty then (["No dependencies found in requirements.txt"], fs)
      else
        let doc0 := _ensure_pyproject_exists fs
        let doc1 := ensureKeyTable doc0 "project"
        let doc2 := updateTableAt doc1 "project"
          (fun p => tinsert p "dependencies" (.arr (deps.map TomlVal.str)))
        let changes0 := ["Migrated " ++ toString deps.length
          ++ " dependencies from requirements.txt"]
        let devStep :=
          match fs.requirements_dev_txt with
          | none => (doc2, changes0)
          | some devLines =>
              let devDeps := devLines.filterMap reqDevLineKeep
              if devDeps.isEmpty then (doc2, changes0)
              else
                let doc3 := updateTableAt doc2 "project"
                  (fun p => ensureKeyTable p "optional-dependencies")
                let doc4 := updateTableAt doc3 "project"
                  (fun p => updateTableAt p "optional-dependencies"
                    (fun o => tinsert o "dev" (.arr (devDeps.map TomlVal.str))))
                (doc4, changes0 ++ ["Migrated " ++ toString devDeps.length
                  ++ " dev dependencies from requirements-dev.txt"])
        if dry_run then (devStep.2, fs)
        else
          (devStep.2 ++ ["Wrote pyproject.toml"],
           { fs with pyproject := some (.parsed devStep.1) })

/-- One Pipfile package entry: a `"*"` wildcard or bare entry keeps the
name, a string spec is appended verbatim, a table uses its `version`
value (formatted by the f-string). -/
def pipenvEntry (name : String) (spec : TomlVal) : String :=
  match spec with
  | .str s => if s = "*" then name else name ++ s
  | .table t =>
      match tlookup t "version" with
      | some v => name ++ tomlDisplay v
      | none => name
  | _ => name

/-- _migrate_pipenv_to_uv (upgrader.py).  The parse-failure message
carries the exception text in the source; it is abbreviated here. -/
def _migrate_pipenv_to_uv (fs : FS) (dry_run : Bool) : List String × FS :=
  match fs.pipfile with
  | none => (["No Pipfile found"], fs)
  | some .invalid => (["Could not parse Pipfile: parse error"], fs)
  | some (.parsed pd) =>
      let doc0 := _ensure_pyproject_exists fs
      let doc1 := ensureKeyTable doc0 "project"
      let deps :=
        match tlookup pd "packages" with
        | some v => (tTableOf v).map fun (kv : String × TomlVal) => pipenvEntry kv.1 kv.2
        | none => []
      let step1 :=
        if !deps.isEmpty then
          (updateTableAt doc1 "project"
             (fun p => tinsert p "dependencies" (.arr (deps.map TomlVal.str))),
           ["Migrated " ++ toString deps.length ++ " dependencies from Pipfile"])
        else (doc1, [])
      let devDeps :=
        match tlookup pd "dev-packages" with
        | some v => (tTableOf v).map fun (kv : String × TomlVal) => pipenvEntry kv.1 kv.2
        | none => []
      let step2 :=
        if !devDeps.isEmpty then
          (updateTableAt
             (updateTableAt step1.1 "project"
               (fun p => ensureKeyTable p "optional-dependencies"))
             "project"
             (fun p => updateTableAt p "optional-dependencies"
               (fun o => tinsert o "dev" (.arr (devDeps.map TomlVal.str)))),
           step1.2 ++ ["Migrated " ++ toString devDeps.length
             ++ " dev dependencies from Pipfile"])
        else step1
      let step3 :=
        if tomlContains (tGetD (.table pd) "requires" (.table []))
            "python_version" then
          let py := tomlDisplay
            (tGetV (tGetV (.table pd) "requires") "python_version")
          (updateTableAt step2.1 "project"
             (fun p => tinsert p "requires-python" (.str (">=" ++ py))),
           step2.2 ++ ["Migrated Python requirement: >=" ++ py])
        else step2
      if dry_run then (step3.2, fs)
      else
        (step3.2 ++ ["Wrote pyproject.toml"],
         { fs with pyproject := some (.parsed step3.1) })

/-- has_option on one ini section. -/
def iniOpt (sec : List (String × String)) (key : String) : Option String :=
  slookup sec key

/-- _migrate_setuptools_to_uv (upgrader.py).  A malformed setup.cfg makes
configparser raise inside the try, producing only the warning message
(abbreviated here, as it carries the exception text). -/
def _migrate_setuptools_to_uv (fs : FS) (dry_run : Bool) : List String × FS :=
  match fs.setup_cfg with
  | some .invalid => (["Warning: Could not fully parse setup.cfg: parse error"], fs)
  | some (.parsed secs) =>
      let meta := iniSection (some (.parsed secs)) "metadata"
      let hasMeta := iniHasSection (some (.parsed secs)) "metadata"
      let opts := iniSection (some (.parsed secs)) "options"
      let hasOpts := iniHasSection (some (.parsed secs)) "options"
      let doc0 := _ensure_pyproject_exists fs
      let doc1 := ensureKeyTable doc0 "project"
      let projUpd := fun (p : List (String × TomlVal)) =>
        let p1 := match iniOpt meta "name" with
          | some v => tinsert p "name" (.str v)
          | none => p
        let p2 := match iniOpt meta "version" with
          | some v => tinsert p1 "version" (.str v)
          | none => p1
        let p3 := match iniOpt meta "description" with
          | some v => tinsert p2 "description" (.str v)
          | none => p2
        let p4 := match iniOpt meta "author" with
          | some a =>
              let author :=
                match iniOpt meta "author_email" with
                | some e => [("name", TomlVal.str a), ("email", TomlVal.str e)]
                | none => [("name", TomlVal.str a)]
              tinsert p3 "authors" (.arr [.table author])
          | none => p3
        let p5 := match iniOpt meta "license" with
          | some v => tinsert p4 "license" (.table [("text", .str v)])
          | none => p4
        p5
      let doc2 := if hasMeta then updateTableAt doc1 "project" projUpd else doc1
      let changes1 := if hasMeta then ["Migrated metadata from setup.cfg"] else []
      let optsUpd := fun (p : List (String × TomlVal)) =>
        let p1 := match iniOpt opts "python_requires" with
          | some v => tinsert p "requires-python" (.str v)
          | none => p
        p1
      let doc3 := if hasOpts then updateTableAt doc2 "project" optsUpd else doc2
      let instReq :=
        match iniOpt opts "install_requires" with
        | some v =>
            some (((pyStrip v).splitOn "\n").map pyStrip |>.filter fun d => d ≠ "")
        | none => none
      let step4 :=
        match instReq with
        | some deps =>
            if hasOpts then
              (updateTableAt doc3 "project"
                 (fun p => tinsert p "dependencies" (.arr (deps.map TomlVal.str))),
               changes1 ++ ["Migrated " ++ toString deps.length ++ " dependencies"])
            else (doc3, changes1)
        | none => (doc3, changes1)
      if dry_run then (step4.2, fs)
      else
        (step4.2 ++ ["Wrote pyproject.toml"],
         { fs with pyproject := some (.parsed step4.1) })
  | none =>
      -- the source quotes the suggested command in the tip message
      if fs.setup_py then
        (["Found setup.py - manual migration recommended",
          "Tip: Run python setup.py egg_info to extract metadata"], fs)
      else ([], fs)

/-- Python truthiness of an optional config value (`cfg.get(k)` is None
when absent). -/
def tomlTruthyOpt : Option TomlVal → Bool
  | some v => tomlTruthy v
  | none => false

/-- Python `int(s)` on the numeric strings flake8 configs contain
(non-numeric input raises ValueError in Python; defaulted to 0 here). -/
def pyInt (s : String) : Int := ((pyStrip s).toInt?).getD 0

/-- `versions[-1] if isinstance(versions, list) else versions` under an
`if versions:` truthiness guard. -/
def lastOrSelf (v : TomlVal) : TomlVal :=
  match v with
  | .arr xs => xs.getLastD (.str "")
  | _ => v

/-- _migrate_black_to_ruff (upgrader.py): pure rewrite of the in-memory
document (the function touches no files).  The aliased `tool` and `ruff`
tables are modelled by building their final values and reinserting them
at their positions. -/
def _migrate_black_to_ruff (doc0 : List (String × TomlVal)) :
    List String × List (String × TomlVal) :=
  let doc1 := ensureKeyTable doc0 "tool"
  let tool0 := tTableOf ((tlookup doc1 "tool").getD (.table []))
  let black := (tlookup tool0 "black").getD (.table [])
  let tool1 := ensureKeyTable tool0 "ruff"
  let ruff0 := tTableOf ((tlookup tool1 "ruff").getD (.table []))
  let stepLL :=
    if tomlContains black "line-length" then
      (tinsert ruff0 "line-length" (tGetV black "line-length"),
       ["Migrated line-length: " ++ tomlDisplay (tGetV black "line-length")])
    else if !tomlContains (.table ruff0) "line-length" then
      (tinsert ruff0 "line-length" (.int 88),
       ["Set line-length to 88 (Black default)"])
    else (ruff0, [])
  let stepTV :=
    if tomlContains black "target-version" then
      let versions := tGetV black "target-version"
      if tomlTruthy versions then
        match lastOrSelf versions with
        | .str s =>
            match s.data with
            | 'p' :: 'y' :: m :: rest =>
                (tinsert stepLL.1 "target-version"
                   (.str ("py" ++ String.mk (m :: rest))),
                 stepLL.2 ++ ["Migrated target-version: py"
                   ++ String.mk (m :: rest)])
            | _ => stepLL
              -- a bare "py" tag raises IndexError in Python; other shapes
              -- fail the startswith test
        | _ => stepLL
      else stepLL
    else stepLL
  let ruff1 := ensureKeyTable stepTV.1 "format"
  let ruff2 := updateTableAt ruff1 "format"
    (fun t => tinsert t "quote-style" (.str "double"))
  let ruff3 :=
    if tomlContains black "skip-magic-trailing-comma" then
      updateTableAt ruff2 "format"
        (fun t => tinsert t "skip-magic-trailing-comma"
          (tGetV black "skip-magic-trailing-comma"))
    else ruff2
  let tool2 := tinsert tool1 "ruff" (.table ruff3)
  let stepDel :=
    if (tlookup tool2 "black").isSome then
      (tremove tool2 "black", stepTV.2 ++ ["Removed [tool.black] section"])
    else (tool2, stepTV.2)
  (stepDel.2, tinsert doc1 "tool" (.table stepDel.1))

/-- Insertion into the nested `tool.ruff.lint.isort` table. -/
def isortNestIns (tool : List (String × TomlVal)) (key : String) (v : TomlVal) :
    List (String × TomlVal) :=
  updateTableAt tool "ruff" fun r =>
    updateTableAt r "lint" fun l =>
      updateTableAt l "isort" fun i => tinsert i key v

/-- _migrate_isort_to_ruff (upgrader.py). -/
def _migrate_isort_to_ruff (fs : FS) (doc0 : List (String × TomlVal))
    (dry_run : Bool) : List String × List (String × TomlVal) × FS :=
  let doc1 := ensureKeyTable doc0 "tool"
  let tool0 := tTableOf ((tlookup doc1 "tool").getD (.table []))
  let isortC := (tlookup tool0 "isort").getD (.table [])
  let tool1 := ensureKeyTable tool0 "ruff"
  let tool2 := updateTableAt tool1 "ruff" fun r => ensureKeyTable r "lint"
  let tool3 := updateTableAt tool2 "ruff" fun r =>
    updateTableAt r "lint" fun l => ensureKeyTable l "isort"
  let m1 :=
    if tomlContains isortC "known_first_party" then
      (isortNestIns tool3 "known-first-party" (tGetV isortC "known_first_party"),
       ["Migrated known_first_party"])
    else (tool3, [])
  let m2 :=
    if tomlContains isortC "known_third_party" then
      (isortNestIns m1.1 "known-third-party" (tGetV isortC "known_third_party"),
       m1.2 ++ ["Migrated known_third_party"])
    else m1
  let m3 :=
    if tomlContains isortC "known_local_folder" then
      (isortNestIns m2.1 "known-local-folder" (tGetV isortC "known_local_folder"),
       m2.2 ++ ["Migrated known_local_folder"])
    else m2
  let m4 :=
    if tomlContains isortC "force_single_line" then
      (isortNestIns m3.1 "force-single-line" (tGetV isortC "force_single_line"),
       m3.2 ++ ["Migrated force_single_line"])
    else m3
  let m5 :=
    if tomlContains isortC "combine_as_imports" then
      (isortNestIns m4.1 "combine-as-imports" (tGetV isortC "combine_as_imports"),
       m4.2 ++ ["Migrated combine_as_imports"])
    else m4
  let lintT := tTableOf (tGetD (tGetD (.table m5.1) "ruff" (.table []))
    "lint" (.table []))
  let m6 :=
    if !(tlookup lintT "select").isSome then
      (updateTableAt m5.1 "ruff" (fun r => updateTableAt r "lint" fun l =>
         tinsert l "select" (.arr [.str "E", .str "F", .str "I"])),
       m5.2 ++ ["Added I (isort) rules to ruff lint.select"])
    else if !tomlContains ((tlookup lintT "select").getD (.arr [])) "I" then
      (updateTableAt m5.1 "ruff" (fun r => updateTableAt r "lint" fun l =>
         match tlookup l "select" with
         | some (.arr xs) => tinsert l "select" (.arr (xs ++ [.str "I"]))
         | _ => l),
       m5.2 ++ ["Added I (isort) to ruff lint.select"])
    else m5
  let m7 :=
    if (tlookup m6.1 "isort").isSome then
      (tremove m6.1 "isort", m6.2 ++ ["Removed [tool.isort] section"])
    else m6
  let docF := tinsert doc1 "tool" (.table m7.1)
  if fs.isort_cfg ∧ !dry_run then
    (m7.2 ++ ["Removed .isort.cfg file"], docF, { fs with isort_cfg := false })
  else (m7.2, docF, fs)

/-- _migrate_flake8_to_ruff (upgrader.py). -/
def _migrate_flake8_to_ruff (fs : FS) (doc0 : List (String × TomlVal))
    (dry_run : Bool) : List String × List (String × TomlVal) × FS :=
  let doc1 := ensureKeyTable doc0 "tool"
  let tool0 := tTableOf ((tlookup doc1 "tool").getD (.table []))
  let tool1 := ensureKeyTable tool0 "ruff"
  let tool2 := updateTableAt tool1 "ruff" fun r => ensureKeyTable r "lint"
  let fconf := iniSection fs.flake8_file "flake8"
  let s1 :=
    match slookup fconf "max-line-length" with
    | some v =>
        (updateTableAt tool2 "ruff"
           (fun r => tinsert r "line-length" (.int (pyInt v))),
         ["Migrated max-line-length: " ++ v])
    | none => (tool2, [])
  let s2 :=
    match slookup fconf "ignore" with
    | some v =>
        let ignored := ((v.splitOn ",").map pyStrip).filter fun i => i ≠ ""
        (updateTableAt s1.1 "ruff" (fun r => updateTableAt r "lint" fun l =>
           tinsert l "ignore" (.arr (ignored.map TomlVal.str))),
         s1.2 ++ ["Migrated " ++ toString ignored.length ++ " ignore rules"])
    | none => s1
  let s3 :=
    match slookup fconf "exclude" with
    | some v =>
        let excluded := ((v.splitOn ",").map pyStrip).filter fun e => e ≠ ""
        (updateTableAt s2.1 "ruff"
           (fun r => tinsert r "exclude" (.arr (excluded.map TomlVal.str))),
         s2.2 ++ ["Migrated " ++ toString excluded.length ++ " exclude patterns"])
    | none => s2
  let lintT := tTableOf (tGetD (tGetD (.table s3.1) "ruff" (.table []))
    "lint" (.table []))
  let s4 :=
    if !(tlookup lintT "select").isSome then
      (updateTableAt s3.1 "ruff" (fun r => updateTableAt r "lint" fun l =>
         tinsert l "select" (.arr [.str "E", .str "F", .str "W"])),
       s3.2 ++ ["Added E, F, W rules to ruff lint.select"])
    else s3
  let docF := tinsert doc1 "tool" (.table s4.1)
  if fs.flake8_file.isSome ∧ !dry_run then
    (s4.2 ++ ["Removed .flake8 file"], docF, { fs with flake8_file := none })
  else (s4.2, docF, fs)

/-- _migrate_mypy_to_basedpyright (upgrader.py). -/
def _migrate_mypy_to_basedpyright (fs : FS) (doc0 : List (String × TomlVal))
    (dry_run : Bool) : List String × List (String × TomlVal) × FS :=
  let doc1 := ensureKeyTable doc0 "tool"
  let tool0 := tTableOf ((tlookup doc1 "tool").getD (.table []))
  let mypyC := (tlookup tool0 "mypy").getD (.table [])
  let tool1 := ensureKeyTable tool0 "basedpyright"
  let mode :=
    if tomlTruthyOpt (tlookup (tTableOf mypyC) "strict") then
      ("strict", "Set typeCheckingMode to strict (from mypy strict)")
    else if tomlTruthyOpt (tlookup (tTableOf mypyC) "warn_return_any")
        || tomlTruthyOpt (tlookup (tTableOf mypyC) "disallow_untyped_defs") then
      ("standard", "Set typeCheckingMode to standard")
    else ("basic", "Set typeCheckingMode to basic")
  let t1 :=
    (updateTableAt tool1 "basedpyright"
       (fun p => tinsert p "typeCheckingMode" (.str mode.1)),
     [mode.2])
  let t2 :=
    if tomlContains mypyC "python_version" then
      (updateTableAt t1.1 "basedpyright"
         (fun p => tinsert p "pythonVersion" (tGetV mypyC "python_version")),
       t1.2 ++ ["Migrated python_version: "
         ++ tomlDisplay (tGetV mypyC "python_version")])
    else t1
  let t3 :=
    if tomlTruthyOpt (tlookup (tTableOf mypyC) "ignore_missing_imports") then
      (updateTableAt t2.1 "basedpyright"
         (fun p => tinsert p "reportMissingImports" (.bool false)),
       t2.2 ++ ["Migrated ignore_missing_imports"])
    else t2
  let t4 :=
    if (tlookup t3.1 "mypy").isSome then
      (tremove t3.1 "mypy", t3.2 ++ ["Removed [tool.mypy] section"])
    else t3
  let docF := tinsert doc1 "tool" (.table t4.1)
  let u1 :=
    if fs.mypy_ini ∧ !dry_run then
      (t4.2 ++ ["Removed mypy.ini"], { fs with mypy_ini := false })
    else (t4.2, fs)
  let u2 :=
    if u1.2.dot_mypy_ini ∧ !dry_run then
      (u1.1 ++ ["Removed .mypy.ini"], { u1.2 with dot_mypy_ini := false })
    else u1
  (u2.1, docF, u2.2)

/-- The state threaded through the step-execution loop of
upgrade_project: accumulated change log, error log, the shared in-memory
document, and the project tree. -/
structure StepState where
  changes : List String
  errors : List String
  doc : List (String × TomlVal)
  fs : FS

/-- `_read_toml_doc(pyproject_path) or doc`: re-read the document after a
package-manager migration, keeping the old one when the file is missing,
unparseable or empty (falsy). -/
def reReadDoc (fs : FS) (doc : List (String × TomlVal)) :
    List (String × TomlVal) :=
  match fs.pyproject with
  | some (.parsed (k :: ks)) => k :: ks
  | _ => doc

/-- One iteration of the migration loop of upgrade_project.  The
per-step `except` handler is not modelled because every modelled
executor is total. -/
def execStep (dry_run : Bool) (st : StepState) (step : MigrationStep) :
    StepState :=
  match step.migration_type with
  | .package_manager =>
      if step.source = "poetry" then
        let r := _migrate_poetry_to_uv st.fs dry_run
        { st with changes := st.changes ++ r.1, fs := r.2,
                  doc := reReadDoc r.2 st.doc }
      else if step.source = "pip" then
        let r := _migrate_requirements_to_uv st.fs dry_run
        { st with changes := st.changes ++ r.1, fs := r.2,
                  doc := reReadDoc r.2 st.doc }
      else if step.source = "pipenv" then
        let r := _migrate_pipenv_to_uv st.fs dry_run
        { st with changes := st.changes ++ r.1, fs := r.2,
                  doc := reReadDoc r.2 st.doc }
      else if step.source = "setuptools" then
        let r := _migrate_setuptools_to_uv st.fs dry_run
        { st with changes := st.changes ++ r.1, fs := r.2,
                  doc := reReadDoc r.2 st.doc }
      else
        { st with changes := st.changes ++ ["Unknown source tool: " ++ step.source] }
  | .formatter =>
      if step.source = "black" then
        let r := _migrate_black_to_ruff st.doc
        { st with changes := st.changes ++ r.1, doc := r.2 }
      else st
  | .linter =>
      if step.source = "isort" then
        let r := _migrate_isort_to_ruff st.fs st.doc dry_run
        { st with changes := st.changes ++ r.1, doc := r.2.1, fs := r.2.2 }
      else if step.source = "flake8" then
        let r := _migrate_flake8_to_ruff st.fs st.doc dry_run
        { st with changes := st.changes ++ r.1, doc := r.2.1, fs := r.2.2 }
      else st
  | .type_checker =>
      if step.source = "mypy" then
        let r := _migrate_mypy_to_basedpyright st.fs st.doc dry_run
        { st with changes := st.changes ++ r.1, doc := r.2.1, fs := r.2.2 }
      else st
  | .config => st
  | .ci_cd => st

/-- upgrade_project (upgrader.py).  The timestamp used for the backup
directory name is passed explicitly (the source takes it from the
clock).  An invalid root path does not raise: the function returns a
result with success = false and a non-empty error list (the source
message also carries the resolved path, which the model omits).  The
`Except` in the return type records that the source body never raises an
input-path exception. -/
def upgrade_project (root : RootPath) (from_tool : Option String)
    (dry_run backup : Bool) (timestamp : String) :
    Except InputError (UpgradeResult × RootPath) :=
  match root with
  | .missing =>
      .ok ({ success := false, errors := ["Path does not exist"] }, .missing)
  | .notDir =>
      .ok ({ success := false, errors := ["Path is not a directory"] }, .notDir)
  | .dir fs =>
      let bk :=
        if backup ∧ !dry_run then
          let r := create_backup fs timestamp
          (some r.1, r.2, ["Created backup at " ++ r.1])
        else (none, fs, [])
      let fs1 := bk.2.1
      let steps := create_migration_plan fs1 from_tool
      if steps.isEmpty then
        .ok ({ success := true,
               changes_made := bk.2.2
                 ++ ["No migrations needed - project may already use modern tooling"],
               backup_path := bk.1,
               migration_steps := steps }, .dir fs1)
      else
        let doc0 :=
          match fs1.pyproject with
          | some (.parsed kvs) => kvs
          | _ => []
        let st := steps.foldl (execStep dry_run)
          { changes := bk.2.2, errors := [], doc := doc0, fs := fs1 }
        let fin :=
          if !dry_run ∧ !st.doc.isEmpty then
            ({ st.fs with pyproject := some (.parsed st.doc) },
             st.changes ++ ["Wrote updated pyproject.toml"])
          else (st.fs, st.changes)
        .ok ({ success := st.errors.isEmpty,
               changes_made := fin.2,
               backup_path := bk.1,
               errors := st.errors,
               migration_steps := steps }, .dir fin.1)

/-- Python `str.lower()` (ASCII; the uncommon non-ASCII case mappings are
not modelled). -/
def pyLower (s : String) : String := String.mk (s.data.map Char.toLower)

/-- The character class `[a-z]`. -/
def isLowerAZ (c : Char) : Bool := 'a' ≤ c && c ≤ 'z'

/-- The character class `[a-z0-9_-]`. -/
def isNameChar (c : Char) : Bool :=
  isLowerAZ c || (('0' ≤ c && c ≤ '9') || (c = '_' || c = '-'))

/-- `re.match(r"^[a-z][a-z0-9_-]*$", v)` as a boolean. -/
def matchesNamePattern (v : String) : Bool :=
  match v.data with
  | [] => false
  | c :: rest => isLowerAZ c && rest.all isNameChar

/-- The reserved-word set literal of ProjectConfig.validate_project_name
(pyhatch/models.py), in source order.  Note that it spells the keywords
True, False and None with their Python capitalization. -/
def reservedWords : List String :=
  ["and", "as", "assert", "async", "await", "break", "class",
   "continue", "def", "del", "elif", "else", "except", "finally",
   "for", "from", "global", "if", "import", "in", "is", "lambda",
   "nonlocal", "not", "or", "pass", "raise", "return", "try",
   "while", "with", "yield", "True", "False", "None"]

/-- The 35 reserved keywords of the Python language (keyword.kwlist);
external reference data used to state the reserved-word claim. -/
def pythonKeywords : List String :=
  ["False", "None", "True", "and", "as", "assert", "async", "await",
   "break", "class", "continue", "def", "del", "elif", "else", "except",
   "finally", "for", "from", "global", "if", "import", "in", "is",
   "lambda", "nonlocal", "not", "or", "pass", "raise", "return", "try",
   "while", "with", "yield"]

/-- ProjectConfig.validate_project_name (pyhatch/models.py): lowercase
and strip the name, reject on the identifier pattern, then reject
membership in the reserved set; a ValueError is an `Except.error` (the
source messages quote the offending name; abbreviated here). -/
def validate_project_name (v : String) : Except String String :=
  let v2 := pyStrip (pyLower v)
  if !matchesNamePattern v2 then
    .error "Invalid project name: must start with a letter and contain only letters, numbers, hyphens, and underscores."
  else if reservedWords.contains v2 then
    .error "is a Python reserved word and cannot be used as a project name."
  else .ok v2

/-- A concrete tree with the modern tool combination (used as a witness
input). -/
def modernFS : FS :=
  { uv_lock := true, ruff_toml := true, pyrightconfig_json := true,
    pre_commit_config := true }

/-! Helper lemmas and the claim theorems. -/

theorem countSev_cons (r : Recommendation) (t : List Recommendation)
    (s : Severity) :
    countSev (r :: t) s =
      (if r.severity = s then 1 else 0) + countSev t s := by
  by_cases h : r.severity = s <;>
    (simp [countSev, List.filter_cons, h]; try omega)

theorem scoreStep_foldl (recs : List Recommendation) : ∀ a : Int,
    recs.foldl scoreStep a =
      a - (20 * (countSev recs .critical : Int)
        + 10 * (countSev recs .error : Int)
        + 5 * (countSev recs .warning : Int)
        + (countSev recs .info : Int)) := by
  induction recs with
  | nil => intro a; simp [countSev]
  | cons r t ih =>
      intro a
      rw [List.foldl_cons, ih]
      rcases hr : r.severity <;>
        (simp [scoreStep, hr, countSev_cons]; ring)

theorem countSev_perm (l1 l2 : List Recommendation) (h : l1.Perm l2)
    (s : Severity) : countSev l1 s = countSev l2 s := by
  unfold countSev
  exact (h.filter _).length_eq

/-- C3: the audit score is 100 minus 20 per critical, 10 per error, 5
per warning and 1 per info recommendation, clamped to [0, 100]; hence
every AuditResult produced by audit_project has a score in [0, 100], and
the score depends only on the multiset of severities (it is invariant
under permutation of the recommendation list). -/
theorem C3_score_formula_bounds_and_order :
    (∀ recs : List Recommendation,
      _calculate_score recs =
        max 0 (min 100 (100 - (20 * (countSev recs .critical : Int)
          + 10 * (countSev recs .error : Int)
          + 5 * (countSev recs .warning : Int)
          + (countSev recs .info : Int)))))
    ∧ (∀ (root : RootPath) (res : AuditResult),
        audit_project root = .ok res → 0 ≤ res.score ∧ res.score ≤ 100)
    ∧ (∀ recs recs2 : List Recommendation, recs.Perm recs2 →
        _calculate_score recs = _calculate_score recs2) := by
  refine ⟨?_, ?_, ?_⟩
  · intro recs
    rw [_calculate_score, scoreStep_foldl]
  · intro root res h
    cases root with
    | missing => simp [audit_project] at h
    | notDir => simp [audit_project] at h
    | dir fs =>
        have hres : res = auditFS fs := by
          simpa [audit_project] using h.symm
        have hscore : res.score = _calculate_score (auditFS fs).recommendations := by
          rw [hres]; rfl
        rw [hscore, _calculate_score]
        constructor
        · exact le_max_left 0 _
        · exact max_le (by norm_num) (min_le_left 100 _)
  · intro recs recs2 h
    rw [_calculate_score, _calculate_score, scoreStep_foldl, scoreStep_foldl,
      countSev_perm recs recs2 h, countSev_perm recs recs2 h,
      countSev_perm recs recs2 h, countSev_perm recs recs2 h]

/-- Witness for C3 at concrete inputs: the formula at the empty list, the
bounds on the audit of an empty project tree, and order independence on a
concrete two-element swap. -/
theorem C3_witness :
    (_calculate_score [] =
      max 0 (min 100 (100 - (20 * (countSev [] .critical : Int)
        + 10 * (countSev [] .error : Int)
        + 5 * (countSev [] .warning : Int)
        + (countSev [] .info : Int)))))
    ∧ (0 ≤ (auditFS {}).score ∧ (auditFS {}).score ≤ 100)
    ∧ _calculate_score
        [mkRec .tooling "a" .info, mkRec .tooling "b" .warning]
      = _calculate_score
        [mkRec .tooling "b" .warning, mkRec .tooling "a" .info] :=
  ⟨C3_score_formula_bounds_and_order.1 [],
   C3_score_formula_bounds_and_order.2.1 (.dir {}) (auditFS {}) rfl,
   C3_score_formula_bounds_and_order.2.2 _ _ (by decide)⟩

theorem coverage_counts_zero (files : List PyFile)
    (h : ∀ pf ∈ files, pyFileExcluded pf = false →
      ∀ ds, pf.content = some ds → ds = []) :
    ∀ acc : Nat × Nat,
      files.foldl
        (fun (acc : Nat × Nat) pf =>
          if pyFileExcluded pf then acc
          else
            match pf.content with
            | none => acc
            | some ds =>
                (acc.1 + (ds.filter defAnnotated).length, acc.2 + ds.length))
        acc = acc := by
  induction files with
  | nil => intro acc; rfl
  | cons pf t ih =>
      intro acc
      rw [List.foldl_cons]
      have ht : ∀ pf2 ∈ t, pyFileExcluded pf2 = false →
          ∀ ds, pf2.content = some ds → ds = [] := by
        intro pf2 hm; exact h pf2 (List.mem_cons_of_mem pf hm)
      by_cases he : pyFileExcluded pf
      · rw [if_pos he]; exact ih ht acc
      · rw [if_neg he]
        cases hc : pf.content with
        | none => exact ih ht acc
        | some ds =>
            have hds : ds = [] :=
              h pf (List.mem_cons_self pf t) (by simpa using he) ds hc
            subst hds
            simpa using ih ht acc

/-- C8: on a tree whose non-excluded, parseable source files contain no
function definitions, analyze_type_coverage returns exactly
(100, 0, 0) — vacuous full coverage, not zero. -/
theorem C8_vacuous_coverage (fs : FS)
    (h : ∀ pf ∈ fs.py_files, pyFileExcluded pf = false →
      ∀ ds, pf.content = some ds → ds = []) :
    analyze_type_coverage fs = (100, 0, 0) := by
  unfold analyze_type_coverage
  rw [coverage_counts_zero fs.py_files h (0, 0)]
  rfl

/-- Witness for C8: a tree with an excluded file that does contain
definitions, an unparseable file, and an empty parseable file. -/
theorem C8_witness :
    analyze_type_coverage
      { py_files :=
          [{ parts := ["venv", "x.py"],
             content := some [{ returns := false, argAnns := [true] }] },
           { parts := ["broken.py"], content := none },
           { parts := ["src", "empty.py"], content := some [] }] } =
      (100, 0, 0) :=
  C8_vacuous_coverage _ (by decide)

/-- C6 evidence: the name "True" is a Python reserved keyword, yet
validate_project_name accepts it (normalizing it to "true"), because the
validator lowercases the name before comparing against a reserved set
that spells True/False/None capitalized; the claim (and the validator
docstring) say every reserved keyword is rejected. -/
theorem C6_reserved_word_gap :
    pythonKeywords.contains "True" = true
    ∧ reservedWords.contains "True" = true
    ∧ validate_project_name "True" = .ok "true"
    ∧ validate_project_name "None" = .ok "none"
    ∧ validate_project_name "False" = .ok "false" := by
  exact ⟨by decide, by decide, rfl, rfl, rfl⟩

theorem slookup_append_of_ne (l1 l2 : List (String × String)) (k : String)
    (h : ∀ p ∈ l1, p.1 ≠ k) : slookup (l1 ++ l2) k = slookup l2 k := by
  induction l1 with
  | nil => rfl
  | cons a t ih =>
      have ha : a.1 ≠ k := h a (List.mem_cons_self a t)
      rw [List.cons_append]
      cases a with
      | mk x y =>
          simp only at ha
          rw [slookup, if_neg ha]
          exact ih fun p hp => h p (List.mem_cons_of_mem _ hp)

theorem optEntry_key (key : String) (o : Option String)
    (p : String × String) (hp : p ∈ optEntry key o) : p.1 = key := by
  cases o with
  | none => simp [optEntry] at hp
  | some v => simp [optEntry] at hp; rw [hp]

theorem toolingBase_no_status (pkg linter formatter sorter tc : Option String)
    (hasPreCommit : Bool) (ci : Option String) (cov : ℚ) :
    ∀ p ∈ toolingBase pkg linter formatter sorter tc hasPreCommit ci cov,
      p.1 ≠ "status" := by
  intro p hp
  simp only [toolingBase, List.mem_append] at hp
  rcases hp with ((((((h1 | h2) | h3) | h4) | h5) | h6) | h7) | h8
  · rw [optEntry_key _ _ _ h1]; decide
  · rw [optEntry_key _ _ _ h2]; decide
  · rw [optEntry_key _ _ _ h3]; decide
  · rw [optEntry_key _ _ _ h4]; decide
  · rw [optEntry_key _ _ _ h5]; decide
  · rcases hasPreCommit <;> simp at h6; rw [h6]; decide
  · rw [optEntry_key _ _ _ h7]; decide
  · rw [List.mem_singleton.mp h8]
    intro hc
    simp at hc

/-- C2: when the detectors report the modern tool combination (uv, ruff,
basedpyright or pyright, pre-commit configured), audit_project
short-circuits: no recommendations at all (regardless of type coverage),
tooling_detected maps "status" to "modern", and the score is 100. -/
theorem C2_modern_short_circuit (fs : FS) (res : AuditResult)
    (h : audit_project (.dir fs) = .ok res)
    (hpkg : detect_package_manager fs = some "uv")
    (hlint : detect_linter fs = some "ruff")
    (htc : detect_type_checker fs = some "basedpyright"
      ∨ detect_type_checker fs = some "pyright")
    (hpc : detect_pre_commit fs = true) :
    res.recommendations = []
      ∧ slookup res.tooling_detected "status" = some "modern"
      ∧ res.score = 100 := by
  have hres : res = auditFS fs := by simpa [audit_project] using h.symm
  subst hres
  have hmodern : (detect_package_manager fs == some "uv"
      && detect_linter fs == some "ruff"
      && (detect_type_checker fs == some "basedpyright"
          || detect_type_checker fs == some "pyright")
      && detect_pre_commit fs) = true := by
    rcases htc with h2 | h2 <;> rw [hpkg, hlint, h2, hpc] <;> rfl
  refine ⟨?_, ?_, ?_⟩
  · simp only [auditFS, hmodern, if_true]
  · simp only [auditFS, hmodern, if_true]
    rw [slookup_append_of_ne _ _ _ (toolingBase_no_status _ _ _ _ _ _ _ _)]
    rfl
  · simp only [auditFS, hmodern, if_true]
    rfl

/-- Witness for C2: a tree with uv.lock, a ruff.toml, a
pyrightconfig.json and a pre-commit config. -/
theorem C2_witness :
    (auditFS modernFS).recommendations = []
      ∧ slookup (auditFS modernFS).tooling_detected "status" = some "modern"
      ∧ (auditFS modernFS).score = 100 :=
  C2_modern_short_circuit _ _ rfl rfl rfl (Or.inr rfl) rfl

theorem pkgRecs_sev (p : Option String) :
    ∀ r ∈ pkgRecs p, r.severity = .info ∨ r.severity = .warning := by
  intro r hr
  unfold pkgRecs at hr
  split_ifs at hr <;> simp_all [mkRec, mkRecA]

theorem linterRecs_sev (l f : Option String) :
    ∀ r ∈ linterRecs l f, r.severity = .info ∨ r.severity = .warning := by
  intro r hr
  unfold linterRecs at hr
  split_ifs at hr <;> simp_all [mkRec, mkRecA]

theorem formatterRecs_sev (f : Option String) :
    ∀ r ∈ formatterRecs f, r.severity = .info ∨ r.severity = .warning := by
  intro r hr
  unfold formatterRecs at hr
  split_ifs at hr <;> simp_all [mkRec, mkRecA]

theorem sorterRecs_sev (s : Option String) :
    ∀ r ∈ sorterRecs s, r.severity = .info ∨ r.severity = .warning := by
  intro r hr
  unfold sorterRecs at hr
  split_ifs at hr <;> simp_all [mkRec, mkRecA]

theorem tcRecs_sev (t : Option String) :
    ∀ r ∈ tcRecs t, r.severity = .info ∨ r.severity = .warning := by
  intro r hr
  unfold tcRecs at hr
  split_ifs at hr <;> simp_all [mkRec, mkRecA]

theorem preCommitRecs_sev (b : Bool) :
    ∀ r ∈ preCommitRecs b, r.severity = .info ∨ r.severity = .warning := by
  intro r hr
  unfold preCommitRecs at hr
  split_ifs at hr <;> simp_all [mkRec, mkRecA]

theorem ciRecs_sev (c : Option String) :
    ∀ r ∈ ciRecs c, r.severity = .info ∨ r.severity = .warning := by
  intro r hr
  unfold ciRecs at hr
  split_ifs at hr <;> simp_all [mkRec, mkRecA]

theorem qualityRecs_sev (cov : ℚ) (typed total : Nat) :
    ∀ r ∈ _generate_code_quality_recommendations cov typed total,
      r.severity = .info ∨ r.severity = .warning := by
  intro r hr
  unfold _generate_code_quality_recommendations at hr
  split_ifs at hr <;> simp_all [mkRec, mkRecA]

/-- C9: every recommendation audit_project emits has severity info or
warning — the engine never produces error or critical findings, so the
critical and error counters are always 0 (and the 20-point and 10-point
deductions are never applied). -/
theorem C9_severities_info_or_warning (fs : FS) (res : AuditResult)
    (h : audit_project (.dir fs) = .ok res) :
    (∀ r ∈ res.recommendations,
      r.severity = .info ∨ r.severity = .warning)
    ∧ critical_count res = 0 ∧ error_count res = 0 := by
  have hres : res = auditFS fs := by simpa [audit_project] using h.symm
  subst hres
  have hall : ∀ r ∈ (auditFS fs).recommendations,
      r.severity = .info ∨ r.severity = .warning := by
    intro r hr
    simp only [auditFS] at hr
    split at hr
    · simp at hr
    · simp only [_generate_tooling_recommendations, List.mem_append] at hr
      rcases hr with ((((((h1 | h2) | h3) | h4) | h5) | h6) | h7) | h8
      · exact pkgRecs_sev _ r h1
      · exact linterRecs_sev _ _ r h2
      · exact formatterRecs_sev _ r h3
      · exact sorterRecs_sev _ r h4
      · exact tcRecs_sev _ r h5
      · exact preCommitRecs_sev _ r h6
      · exact ciRecs_sev _ r h7
      · exact qualityRecs_sev _ _ _ r h8
  refine ⟨hall, ?_, ?_⟩
  · unfold critical_count
    rw [List.length_eq_zero, List.filter_eq_nil_iff]
    intro a ha
    rcases hall a ha with h1 | h1 <;> simp [h1]
  · unfold error_count
    rw [List.length_eq_zero, List.filter_eq_nil_iff]
    intro a ha
    rcases hall a ha with h1 | h1 <;> simp [h1]

/-- Witness for C9 on the audit of an empty project tree. -/
theorem C9_witness :
    (∀ r ∈ (auditFS {}).recommendations,
      r.severity = .info ∨ r.severity = .warning)
    ∧ critical_count (auditFS {}) = 0 ∧ error_count (auditFS {}) = 0 :=
  C9_severities_info_or_warning {} (auditFS {}) rfl

/-- C7: a tree with the modern lock file (uv.lock), a manifest whose tool
table holds exactly the modern linter ([tool.ruff]) and modern type
checker ([tool.basedpyright]) sections, the pre-commit dotfile, and no
legacy config files (no .isort.cfg, no setup.cfg) yields an empty
migration plan from create_migration_plan with no source-tool override. -/
theorem C7_plan_empty (fs : FS) (kvs : List (String × TomlVal))
    (rv bv : TomlVal)
    (huv : fs.uv_lock = true)
    (hpy : fs.pyproject = some (.parsed kvs))
    (htool : tlookup kvs "tool"
      = some (.table [("ruff", rv), ("basedpyright", bv)]))
    (hisort : fs.isort_cfg = false)
    (hcfg : fs.setup_cfg = none)
    (_hpc : fs.pre_commit_config = true) :
    create_migration_plan fs none = [] := by
  have hne : kvs ≠ [] := by
    intro hk
    rw [hk] at htool
    simp [tlookup] at htool
  have htr : truthyDict (some kvs) = true := by
    cases kvs with
    | nil => exact absurd rfl hne
    | cons a t => rfl
  have hct : ∀ x, dictContains2 (some kvs) "tool" x
      = tomlContains (.table [("ruff", rv), ("basedpyright", bv)]) x := by
    intro x
    simp [dictContains2, htool]
  have hruff : dictContains2 (some kvs) "tool" "ruff" = true := by
    rw [hct]; simp [tomlContains, tlookup]
  have hbp : dictContains2 (some kvs) "tool" "basedpyright" = true := by
    rw [hct]; simp [tomlContains, tlookup]
  have hblack : dictContains2 (some kvs) "tool" "black" = false := by
    rw [hct]; simp [tomlContains, tlookup]
  have hiso : dictContains2 (some kvs) "tool" "isort" = false := by
    rw [hct]; simp [tomlContains, tlookup]
  have hpkg : detect_package_manager fs = some "uv" := by
    unfold detect_package_manager
    rw [huv]
    rfl
  have hsrc : detect_source_tool fs = none := by
    unfold detect_source_tool
    rw [hpkg]
    rfl
  have hlint : detect_linter fs = some "ruff" := by
    unfold detect_linter
    rw [hpy]
    simp only [readTomlDict, htr, hruff]
    cases hr : fs.ruff_toml <;> simp
  have htc : detect_type_checker fs = some "basedpyright" := by
    unfold detect_type_checker
    rw [hpy]
    simp only [readTomlDict, htr, hbp]
    simp
  have hfmt : detect_formatter fs ≠ some "black" := by
    unfold detect_formatter
    rw [hpy, hcfg]
    simp only [readTomlDict, htr, hblack, hruff]
    split_ifs <;> simp_all [iniHasSection]
  have hsort : detect_import_sorter fs ≠ some "isort" := by
    unfold detect_import_sorter
    rw [hpy, hcfg, hisort]
    simp only [readTomlDict, htr, hiso, hruff]
    split_ifs <;> simp_all [iniHasSection]
  unfold create_migration_plan
  rw [hsrc, hlint, htc]
  simp only [hne]
  rw [if_neg hfmt, if_neg hsort]
  simp

/-- Witness for C7 on a concrete modern tree. -/
theorem C7_witness :
    create_migration_plan
      { uv_lock := true,
        pyproject := some (.parsed
          [("tool", .table [("ruff", .table []),
                            ("basedpyright", .table [])])]),
        pre_commit_config := true }
      none = [] :=
  C7_plan_empty _ _ _ _ rfl rfl rfl rfl rfl rfl

theorem poetry_dry_fs (fs : FS) : (_migrate_poetry_to_uv fs true).2 = fs := by
  unfold _migrate_poetry_to_uv
  repeat' (first | rfl | split | dsimp only)
  all_goals simp_all

theorem requirements_dry_fs (fs : FS) :
    (_migrate_requirements_to_uv fs true).2 = fs := by
  unfold _migrate_requirements_to_uv
  repeat' (first | rfl | split | dsimp only)
  all_goals simp_all

theorem pipenv_dry_fs (fs : FS) : (_migrate_pipenv_to_uv fs true).2 = fs := by
  unfold _migrate_pipenv_to_uv
  repeat' (first | rfl | split | dsimp only)
  all_goals simp_all

theorem setuptools_dry_fs (fs : FS) :
    (_migrate_setuptools_to_uv fs true).2 = fs := by
  unfold _migrate_setuptools_to_uv
  repeat' (first | rfl | split | dsimp only)
  all_goals simp_all

theorem isort_dry_fs (fs : FS) (doc : List (String × TomlVal)) :
    (_migrate_isort_to_ruff fs doc true).2.2 = fs := by
  unfold _migrate_isort_to_ruff
  split_ifs with h
  · simp at h
  · rfl

theorem flake8_dry_fs (fs : FS) (doc : List (String × TomlVal)) :
    (_migrate_flake8_to_ruff fs doc true).2.2 = fs := by
  unfold _migrate_flake8_to_ruff
  split_ifs with h
  · simp at h
  · rfl

theorem mypy_dry_fs (fs : FS) (doc : List (String × TomlVal)) :
    (_migrate_mypy_to_basedpyright fs doc true).2.2 = fs := by
  unfold _migrate_mypy_to_basedpyright
  split_ifs with h1 h2 <;> simp_all

theorem execStep_dry_fs (st : StepState) (step : MigrationStep) :
    (execStep true st step).fs = st.fs := by
  unfold execStep
  split <;> (try split_ifs) <;>
    simp [poetry_dry_fs, requirements_dry_fs, pipenv_dry_fs,
      setuptools_dry_fs, isort_dry_fs, flake8_dry_fs, mypy_dry_fs]

theorem foldl_dry_fs (steps : List MigrationStep) :
    ∀ st : StepState, (steps.foldl (execStep true) st).fs = st.fs := by
  induction steps with
  | nil => intro st; rfl
  | cons s t ih =>
      intro st
      rw [List.foldl_cons, ih]
      exact execStep_dry_fs st s

/-- C4: upgrade_project with dry_run = true performs no on-disk
mutation: the project tree returned is exactly the input tree (no file
changed or deleted, and no backup directory created even when
backup = true). -/
theorem C4_dry_run_non_mutation (root : RootPath) (ft : Option String)
    (b : Bool) (ts : String) :
    (upgrade_project root ft true b ts).map (fun p => p.2) = .ok root := by
  cases root with
  | missing => rfl
  | notDir => rfl
  | dir fs =>
      simp only [upgrade_project]
      rw [if_neg (by simp : ¬(b = true ∧ (!true) = true))]
      split_ifs with h h2
      · rfl
      · exact absurd h2.1 (by simp)
      · simp only [Except.map]
        rw [foldl_dry_fs]

theorem poetry_backups (fs : FS) (d : Bool) :
    (_migrate_poetry_to_uv fs d).2.backups = fs.backups := by
  unfold _migrate_poetry_to_uv
  repeat' (first | rfl | split | dsimp only)

theorem requirements_backups (fs : FS) (d : Bool) :
    (_migrate_requirements_to_uv fs d).2.backups = fs.backups := by
  unfold _migrate_requirements_to_uv
  repeat' (first | rfl | split | dsimp only)

theorem pipenv_backups (fs : FS) (d : Bool) :
    (_migrate_pipenv_to_uv fs d).2.backups = fs.backups := by
  unfold _migrate_pipenv_to_uv
  repeat' (first | rfl | split | dsimp only)

theorem setuptools_backups (fs : FS) (d : Bool) :
    (_migrate_setuptools_to_uv fs d).2.backups = fs.backups := by
  unfold _migrate_setuptools_to_uv
  repeat' (first | rfl | split | dsimp only)

theorem isort_backups (fs : FS) (doc : List (String × TomlVal)) (d : Bool) :
    (_migrate_isort_to_ruff fs doc d).2.2.backups = fs.backups := by
  unfold _migrate_isort_to_ruff
  split_ifs <;> rfl

theorem flake8_backups (fs : FS) (doc : List (String × TomlVal)) (d : Bool) :
    (_migrate_flake8_to_ruff fs doc d).2.2.backups = fs.backups := by
  unfold _migrate_flake8_to_ruff
  split_ifs <;> rfl

theorem mypy_backups (fs : FS) (doc : List (String × TomlVal)) (d : Bool) :
    (_migrate_mypy_to_basedpyright fs doc d).2.2.backups = fs.backups := by
  unfold _migrate_mypy_to_basedpyright
  repeat' (first | rfl | split | dsimp only)

theorem execStep_backups (d : Bool) (st : StepState) (step : MigrationStep) :
    (execStep d st step).fs.backups = st.fs.backups := by
  unfold execStep
  split <;> (try split_ifs) <;>
    simp [poetry_backups, requirements_backups, pipenv_backups,
      setuptools_backups, isort_backups, flake8_backups, mypy_backups]

theorem foldl_backups (d : Bool) (steps : List MigrationStep) :
    ∀ st : StepState,
      (steps.foldl (execStep d) st).fs.backups = st.fs.backups := by
  induction steps with
  | nil => intro st; rfl
  | cons s t ih =>
      intro st
      rw [List.foldl_cons, ih]
      exact execStep_backups d st s

/-- C10: upgrade_project on a valid directory with backup = true and
dry_run = false creates the backup directory named
`.quickforge_backup_<timestamp>` inside the project root, copying every
existing well-known config file into it — before the migration plan is
even computed, so also when the plan turns out empty. -/
theorem C10_backup_always_created (fs : FS) (ft : Option String)
    (ts : String) :
    ∃ res fs2,
      upgrade_project (.dir fs) ft false true ts = .ok (res, .dir fs2)
        ∧ res.backup_path = some (backupDirName ts)
        ∧ (backupDirName ts, backupFiles.filter (fileExistsIn fs))
            ∈ fs2.backups
        ∧ ∀ name ∈ backupFiles, fileExistsIn fs name = true →
            name ∈ backupFiles.filter (fileExistsIn fs) := by
  simp only [upgrade_project]
  rw [if_pos (by simp : (True ∧ (!false) = true))]
  split_ifs with h h2
  · refine ⟨_, _, rfl, rfl, ?_, ?_⟩
    · simp [create_backup]
    · intro name hn hex
      exact List.mem_filter.mpr ⟨hn, hex⟩
  · refine ⟨_, _, rfl, rfl, ?_, ?_⟩
    · show _ ∈ (_ : FS).backups
      rw [foldl_backups]
      simp [create_backup]
    · intro name hn hex
      exact List.mem_filter.mpr ⟨hn, hex⟩
  · refine ⟨_, _, rfl, rfl, ?_, ?_⟩
    · show _ ∈ (_ : FS).backups
      rw [foldl_backups]
      simp [create_backup]
    · intro name hn hex
      exact List.mem_filter.mpr ⟨hn, hex⟩

/-- C1 counterexample: on a missing root path, upgrade_project does not
raise — it returns a normal UpgradeResult (success = false, one error
message), so the claim that an invalid root makes upgrade_project raise
immediately is false on the code.  The own test of the repository
(test_upgrade_nonexistent_path) asserts exactly this returning
behavior. -/
theorem C1_counterexample_upgrade_returns :
    upgrade_project .missing none false true "20240101_000000"
      = .ok ({ success := false, errors := ["Path does not exist"] },
             .missing)
    ∧ ∀ e, upgrade_project .missing none false true "20240101_000000"
        ≠ .error e :=
  ⟨rfl, fun _ h => Except.noConfusion h⟩

/-- C1 amended: for an invalid root path (missing or not a directory),
upgrade_project returns normally an UpgradeResult with success = false
and a non-empty errors list (it never raises for input errors), while
audit_project does raise. -/
theorem C1_invalid_root_behavior (ft : Option String) (d b : Bool)
    (ts : String) :
    upgrade_project .missing ft d b ts
      = .ok ({ success := false, errors := ["Path does not exist"] },
             .missing)
    ∧ upgrade_project .notDir ft d b ts
      = .ok ({ success := false, errors := ["Path is not a directory"] },
             .notDir)
    ∧ audit_project .missing = .error .fileNotFound
    ∧ audit_project .notDir = .error .notADirectory :=
  ⟨rfl, rfl, rfl, rfl⟩

theorem convertDepEntry_caret (dep x : String) :
    convertDepEntry dep (.str ("^" ++ x)) = [dep ++ ">=" ++ x] := by
  cases x with
  | mk d => rfl

theorem convertDevEntry_caret (devn y : String) :
    convertDevEntry devn (.str ("^" ++ y)) = devn ++ ">=" ++ y := by
  cases y with
  | mk d => rfl

/-- The C5 manifest: a pyproject document whose only content is a
`[tool.poetry]` section with a name, a version, one caret-versioned
dependency and one caret-versioned dev-group dependency. -/
def c5Doc (n ver dep x devn y : String) : List (String × TomlVal) :=
  [("tool", .table [("poetry", .table
    [("name", .str n), ("version", .str ver),
     ("dependencies", .table [(dep, .str ("^" ++ x))]),
     ("group", .table [("dev", .table
       [("dependencies", .table [(devn, .str ("^" ++ y))])])])])])]

theorem poetryTransform_c5 (rd : Bool) (n ver dep x devn y : String)
    (hdep : dep ≠ "python") :
    (poetryTransformDoc rd (c5Doc n ver dep x devn y)).1 =
      [("project", .table
        ([("name", .str n), ("version", .str ver)]
          ++ (if rd then [("readme", TomlVal.str "README.md")] else [])
          ++ [("dependencies", .arr [.str (dep ++ ">=" ++ x)]),
              ("optional-dependencies", .table
                [("dev", .arr [.str (devn ++ ">=" ++ y)])])])),
       ("build-system", buildSystemTable)] := by
  cases rd <;>
    simp [poetryTransformDoc, c5Doc, tGetV, tGetD, tomlContains, tlookup,
      tinsert, tremove, tTableOf, updateTableAt, hdep,
      convertDepEntry_caret, convertDevEntry_caret]

/-- C5: migrating the c5Doc manifest (a `[tool.poetry]` section with a
name, a version, one caret-versioned dependency and one dev-group
dependency) removes the `[tool.poetry]` section (here the whole emptied
`[tool]` table), puts the name and version into `[project]`, converts the
caret spec into an entry `dep>=x` of the dependency list, and puts the
converted dev dependency into the optional-dependencies dev group. -/
theorem C5_poetry_round_trip (fs : FS) (n ver dep x devn y : String)
    (hdep : dep ≠ "python")
    (hpy : fs.pyproject = some (.parsed (c5Doc n ver dep x devn y))) :
    ∃ doc1,
      (_migrate_poetry_to_uv fs false).2.pyproject = some (.parsed doc1)
        ∧ tlookup doc1 "tool" = none
        ∧ ∃ proj, tlookup doc1 "project" = some (.table proj)
          ∧ tlookup proj "name" = some (.str n)
          ∧ tlookup proj "version" = some (.str ver)
          ∧ (∃ ds, tlookup proj "dependencies" = some (.arr ds)
              ∧ TomlVal.str (dep ++ ">=" ++ x) ∈ ds)
          ∧ (∃ od, tlookup proj "optional-dependencies" = some (.table od)
              ∧ ∃ dd, tlookup od "dev" = some (.arr dd)
                ∧ TomlVal.str (devn ++ ">=" ++ y) ∈ dd) := by
  have hfs : (_migrate_poetry_to_uv fs false).2.pyproject
      = some (.parsed (poetryTransformDoc fs.readme_md
          (c5Doc n ver dep x devn y)).1) := by
    simp only [_migrate_poetry_to_uv, hpy]
    rw [if_neg (by simp [c5Doc] : ¬(c5Doc n ver dep x devn y).isEmpty = true)]
    rw [if_neg (by
      simp [c5Doc, dictContains2, tomlContains, tlookup] :
        ¬(!dictContains2 (some (c5Doc n ver dep x devn y)) "tool" "poetry")
          = true)]
    split_ifs <;> first | rfl | simp_all
  rw [hfs, poetryTransform_c5 fs.readme_md n ver dep x devn y hdep]
  cases hr : fs.readme_md <;>
    exact ⟨_, rfl, rfl,
      ⟨_, rfl, rfl, rfl, ⟨_, rfl, by simp⟩, ⟨_, rfl, ⟨_, rfl, by simp⟩⟩⟩⟩

/-- Witness for C5 at a concrete manifest. -/
theorem C5_witness :
    ∃ doc1,
      (_migrate_poetry_to_uv
          { pyproject := some (.parsed
              (c5Doc "demo" "1.0.0" "requests" "2.31" "pytest" "8.0")) }
          false).2.pyproject = some (.parsed doc1)
        ∧ tlookup doc1 "tool" = none
        ∧ ∃ proj, tlookup doc1 "project" = some (.table proj)
          ∧ tlookup proj "name" = some (.str "demo")
          ∧ tlookup proj "version" = some (.str "1.0.0")
          ∧ (∃ ds, tlookup proj "dependencies" = some (.arr ds)
              ∧ TomlVal.str ("requests" ++ ">=" ++ "2.31") ∈ ds)
          ∧ (∃ od, tlookup proj "optional-dependencies" = some (.table od)
              ∧ ∃ dd, tlookup od "dev" = some (.arr dd)
                ∧ TomlVal.str ("pytest" ++ ">=" ++ "8.0") ∈ dd) :=
  C5_poetry_round_trip _ "demo" "1.0.0" "requests" "2.31" "pytest" "8.0"
    (by decide) rfl
